import Mathlib

/-!
Verification of the core logic of the zendesk_analyser repository:
the classification heuristic and analysis pipeline of `src/app.py`
(`get_ticket_analysis`), the structured-text extractors of
`src/services/openai_service.py`, and the bulk job orchestrator of
`src/bulk_processor.py`.  Python strings are modelled as Lean `String`s
(operations defined over `List Char`), Python dicts as ordered
association lists of `String × PyVal`, and calls to external
collaborators (the OpenAI gateway, the Zendesk fetches, the database)
as environment-supplied `Except String` outcomes, where `.error`
stands for a raised exception.
-/

namespace ZA

/-! ## Python string primitives -/

/-- Python `str.lower()` (character-wise, as used on the ASCII texts here). -/
def pyLower (s : String) : String := String.mk (s.toList.map Char.toLower)

/-- Python `str.upper()`. -/
def pyUpper (s : String) : String := String.mk (s.toList.map Char.toUpper)

/-- Index of the first occurrence of `needle` in `hay` (Python `str.find`,
with `Option.none` for -1). -/
def findSub (needle : List Char) : List Char → Option Nat
  | [] => if needle.isPrefixOf ([] : List Char) then some 0 else Option.none
  | c :: t =>
    if needle.isPrefixOf (c :: t) then some 0
    else (findSub needle t).map (· + 1)

/-- Python substring containment `needle in hay`. -/
def pyIn (needle hay : String) : Bool := (findSub needle.toList hay.toList).isSome

/-- Python `s.startswith(pre)`. -/
def pyStartsWith (s pre : String) : Bool := pre.toList.isPrefixOf s.toList

/-- Python whitespace for `str.strip()`. -/
def pyIsSpace (c : Char) : Bool :=
  c = ' ' || c = '\t' || c = '\n' || c = '\r' || c = '\x0b' || c = '\x0c'

/-- Python `str.strip()`. -/
def pyStrip (s : String) : String :=
  String.mk (((s.toList.dropWhile pyIsSpace).reverse.dropWhile pyIsSpace).reverse)

/-- Python slicing `s[:n]`. -/
def pyTake (s : String) (n : Nat) : String := String.mk (s.toList.take n)

/-- Python slicing `s[n:]`. -/
def pyDrop (s : String) (n : Nat) : String := String.mk (s.toList.drop n)

/-- Python `str.find`, returning `Option.none` instead of -1. -/
def pyFind (hay needle : String) : Option Nat := findSub needle.toList hay.toList

/-- Fuel-driven worker for `pySplit`; the fuel `hay.length + 1` always
suffices for a non-empty separator. -/
def pySplitAux (sep : List Char) : Nat → List Char → List (List Char)
  | 0, t => [t]
  | fuel + 1, t =>
    match findSub sep t with
    | Option.none => [t]
    | some i => t.take i :: pySplitAux sep fuel (t.drop (i + sep.length))

/-- Python `s.split(sep)` for a non-empty separator. -/
def pySplit (s sep : String) : List String :=
  (pySplitAux sep.toList (s.toList.length + 1) s.toList).map String.mk

/-! ## Python values and dicts -/

/-- A Python value as it occurs in the analysis-result dicts. -/
inductive PyVal where
  | str (s : String)
  | bool (b : Bool)
  | int (n : Int)
  | none
  | listV (xs : List PyVal)
  | dictV (xs : List (String × PyVal))

/-- A Python dict with string keys, as an insertion-ordered association list. -/
abbrev Dict := List (String × PyVal)

/-- Python `d.get(k, dflt)`. -/
def dictGet (d : Dict) (k : String) (dflt : PyVal) : PyVal :=
  match d with
  | [] => dflt
  | (k', v) :: rest => if k' = k then v else dictGet rest k dflt

/-- Python `d[k] = v` (update in place if present, else append). -/
def dictSet (d : Dict) (k : String) (v : PyVal) : Dict :=
  match d with
  | [] => [(k, v)]
  | (k', v') :: rest => if k' = k then (k, v) :: rest else (k', v') :: dictSet rest k v

/-- Python `k in d`. -/
def dictHas (d : Dict) (k : String) : Bool :=
  match d with
  | [] => false
  | (k', _) :: rest => k' == k || dictHas rest k

/-- Python truthiness of a value. -/
def pyTruthy : PyVal → Bool
  | .str s => s != ""
  | .bool b => b
  | .int n => n != 0
  | .none => false
  | .listV xs => !xs.isEmpty
  | .dictV xs => !xs.isEmpty

/-- View a value as a string (the code only applies string operations to
values that are strings; other constructors are unreachable there). -/
def asStr : PyVal → String
  | .str s => s
  | _ => ""

/-- View a value as a dict. -/
def asDict : PyVal → Dict
  | .dictV d => d
  | _ => []

/-- Python `len` on the values it is applied to in this code. -/
def pyLen : PyVal → Nat
  | .str s => s.length
  | .listV xs => xs.length
  | .dictV xs => xs.length
  | _ => 0

/-- View a value as an integer (for the `num_test_cases > 0` comparison). -/
def pyInt : PyVal → Int
  | .int n => n
  | .bool b => if b then 1 else 0
  | _ => 0

/-! ## Classification heuristic (src/app.py lines 1473-1525) -/

/-- Phrase list for `root_cause_not_identified` (app.py 1477-1481). -/
def rootCauseNotIdentifiedPhrases : List String :=
  ["not identified", "unable to determine", "unknown", "not clear",
   "cannot be determined", "not specified", "not found", "unclear",
   "ambiguous", "vague", "not known"]

/-- Phrase list for `functional_gap_indicators` (app.py 1483-1490). -/
def functionalGapPhrases : List String :=
  ["no task created", "task not created", "not created", "missing task",
   "no failure reported", "no error", "silent failure", "silently failed",
   "did not trigger", "not triggered", "failed to trigger", "should have",
   "expected to", "supposed to", "should create", "should generate",
   "missing", "not generated", "not executed", "not running",
   "stuck", "stopped", "not working", "not functioning"]

/-- Phrase list for `code_bug_indicators` (app.py 1492-1499). -/
def codeBugPhrases : List String :=
  ["exception", "not properly handled", "not handled", "error handling",
   "exception handling", "bug", "defect", "failure", "crash", "leak",
   "memory leak", "race condition", "deadlock", "timeout", "retry",
   "logic error", "algorithm error", "validation error", "processing error",
   "data corruption", "data loss", "incorrect", "wrong", "invalid",
   "missing check", "missing validation", "missing error", "missing exception"]

/-- Phrase list for `is_pure_user_mistake` (app.py 1501-1505). -/
def userMistakePhrases : List String :=
  ["user error", "user mistake", "user configuration error",
   "user did not", "user failed to", "user misunderstood",
   "user did not follow", "user not following"]

/-- Phrase list for `is_product_limitation` (app.py 1507-1512). -/
def productLimitationPhrases : List String :=
  ["product limitation", "system limitation", "by design",
   "documented limitation", "known limitation", "working as designed",
   "feature does not exist", "feature not available", "missing feature",
   "not supported", "not implemented", "out of scope"]

/-- Python `any(phrase in text for phrase in phrases)`. -/
def anyPhraseIn (phrases : List String) (text : String) : Bool :=
  phrases.any (fun p => pyIn p text)

/-- The idiom `x.lower() if x else ''` of app.py 1473-1474. -/
def lowerOrEmpty (s : String) : String :=
  if pyTruthy (.str s) then pyLower s else ""

theorem lowerOrEmpty_eq (s : String) : lowerOrEmpty s = pyLower s := by
  by_cases h : s = ""
  · subst h; rfl
  · simp [lowerOrEmpty, pyTruthy, h]

/-- The reason string of rule 2 (app.py 1519). -/
def rule2Reason : String :=
  "Root cause not identified and no clear functional gap - cannot create meaningful test cases without a specific root cause or expected behavior to validate"

/-- The reason string of rule 4 (app.py 1525). -/
def rule4Reason : String :=
  "User mistake or product limitation - test cases should only be created for functional bugs requiring code/logic fixes"

/-- The classification override of `get_ticket_analysis`
(src/app.py lines 1469-1525): reads `issue_description` and `root_cause`
from the Phase-1 dict, evaluates the keyword predicates on the lowercased
texts, and overrides `test_case_needed` / `test_case_needed_reason`
through the if/elif chain; a dict on which no rule fires is returned
unchanged. -/
def applyValidationLogic (ta : Dict) : Dict :=
  let issue_description := asStr (dictGet ta "issue_description" (.str ""))
  let root_cause := asStr (dictGet ta "root_cause" (.str ""))
  let root_cause_lower := lowerOrEmpty root_cause
  let issue_description_lower := lowerOrEmpty issue_description
  let combined_text := root_cause_lower ++ " " ++ issue_description_lower
  let root_cause_not_identified := anyPhraseIn rootCauseNotIdentifiedPhrases root_cause_lower
  let functional_gap_indicators := anyPhraseIn functionalGapPhrases issue_description_lower
  let code_bug_indicators := anyPhraseIn codeBugPhrases root_cause_lower
  let is_pure_user_mistake :=
    anyPhraseIn userMistakePhrases combined_text && !code_bug_indicators
  let is_product_limitation :=
    anyPhraseIn productLimitationPhrases combined_text && !code_bug_indicators
  if root_cause_not_identified && functional_gap_indicators then
    dictSet (dictSet ta "test_case_needed" (.bool true)) "test_case_needed_reason"
      (.str ("Functional gap identified: " ++ pyTake issue_description 100 ++
        "... - test case needed to validate expected behavior even though root cause is unclear"))
  else if root_cause_not_identified && !functional_gap_indicators then
    dictSet (dictSet ta "test_case_needed" (.bool false)) "test_case_needed_reason"
      (.str rule2Reason)
  else if code_bug_indicators then
    dictSet (dictSet ta "test_case_needed" (.bool true)) "test_case_needed_reason"
      (.str ("Code bug identified: " ++ pyTake root_cause 100 ++
        " - test case needed to validate fix and prevent regression"))
  else if is_pure_user_mistake || is_product_limitation then
    dictSet (dictSet ta "test_case_needed" (.bool false)) "test_case_needed_reason"
      (.str rule4Reason)
  else
    ta

/-! ### Claim-side decision table (spec section 4.2) -/

/-- Predicate 1 of the claim: `rootCauseUnclear` over the root-cause text. -/
def claimRootCauseUnclear (rootCauseText : String) : Bool :=
  anyPhraseIn rootCauseNotIdentifiedPhrases (pyLower rootCauseText)

/-- Predicate 2 of the claim: `functionalGap` over the issue text. -/
def claimFunctionalGap (issueText : String) : Bool :=
  anyPhraseIn functionalGapPhrases (pyLower issueText)

/-- Predicate 3 of the claim: `codeBugIndicator` over the root-cause text. -/
def claimCodeBugIndicator (rootCauseText : String) : Bool :=
  anyPhraseIn codeBugPhrases (pyLower rootCauseText)

/-- The combined text of the claim (root-cause text then issue text,
both lowercased). -/
def claimCombinedText (issueText rootCauseText : String) : String :=
  pyLower rootCauseText ++ " " ++ pyLower issueText

/-- Predicate 4 of the claim: a user-error phrase match AND NOT
`codeBugIndicator`. -/
def claimPureUserMistake (issueText rootCauseText : String) : Bool :=
  anyPhraseIn userMistakePhrases (claimCombinedText issueText rootCauseText) &&
    !claimCodeBugIndicator rootCauseText

/-- Predicate 5 of the claim: a by-design/feature-gap phrase match AND NOT
`codeBugIndicator`. -/
def claimProductLimitation (issueText rootCauseText : String) : Bool :=
  anyPhraseIn productLimitationPhrases (claimCombinedText issueText rootCauseText) &&
    !claimCodeBugIndicator rootCauseText

/-- The decision table of the claim, first matching row wins; the final
fall-through keeps Phase 1's own answer. -/
def claimDecisionTable (rootCauseUnclear functionalGap codeBugIndicator
    userMistakeOrLimitation : Bool) (phase1Answer : PyVal) : PyVal :=
  if rootCauseUnclear && functionalGap then .bool true
  else if rootCauseUnclear && !functionalGap then .bool false
  else if codeBugIndicator then .bool true
  else if userMistakeOrLimitation then .bool false
  else phase1Answer

/-! ## Structured text extraction (src/services/openai_service.py) -/

/-- The `extract_section` helper shared (with different stop lists) by
`_parse_phase1_response`, `_parse_phase2_response` and
`_parse_validation_response`: split on `key ++ ":"`, take the text after
the first occurrence, and narrow it at each stop label that occurs in the
running remainder. -/
def extractSection (key : String) (text : String) (nextSections : List String) : String :=
  match pySplit text (key ++ ":") with
  | _ :: p1 :: _ =>
    nextSections.foldl
      (fun st sec =>
        if sec ≠ key && pyIn (sec ++ ":") st then
          pyStrip ((pySplit st (sec ++ ":")).headD "")
        else st)
      (pyStrip p1)
  | _ => ""

/-- The section labels of `_parse_phase1_response`. -/
def p1Sections : List String :=
  ["Issue Description", "Root Cause", "Issue Theme", "Root Cause Theme", "Test Case Needed"]

/-- `_parse_phase1_response` (openai_service.py 722-746). -/
def parsePhase1 (output : String) : Dict :=
  let test_case_needed_text := pyStrip (extractSection "Test Case Needed" output p1Sections)
  [("issue_description", .str (extractSection "Issue Description" output p1Sections)),
   ("root_cause", .str (extractSection "Root Cause" output p1Sections)),
   ("issue_theme", .str (pyStrip (extractSection "Issue Theme" output p1Sections))),
   ("root_cause_theme", .str (pyStrip (extractSection "Root Cause Theme" output p1Sections))),
   ("test_case_needed", .bool (pyStartsWith (pyUpper test_case_needed_text) "YES")),
   ("test_case_needed_reason", .str test_case_needed_text)]

/-- The default stop list of `_parse_phase2_response.extract_section`. -/
def p2DefaultStops : List String :=
  ["Regression Test Needed", "Number of Test Cases",
   "Test Case 1", "Test Case 2", "Test Case 3", "Test Case 4", "Test Case 5",
   "Test Case Description", "Test Case Steps",
   "Recommended Solution Approach", "Additional Test Scenarios"]

/-- The slice of `output` holding test case `number`
(openai_service.py 775-798): from the `Test Case n:` marker up to the next
test case or terminal section marker. -/
def testCaseBlock (number : Nat) (text : String) : Option String :=
  let marker := "Test Case " ++ toString number ++ ":"
  if pyIn marker text then
    match pyFind text marker with
    | some start_idx =>
      let section_text := pyDrop text start_idx
      let next_markers := ["Test Case " ++ toString (number + 1) ++ ":",
        "Recommended Solution Approach:", "Additional Test Scenarios:"]
      let end_idx := next_markers.foldl
        (fun e m =>
          match pyFind section_text m with
          | some idx => if idx < e then idx else e
          | Option.none => e)
        section_text.length
      some (pyTake section_text end_idx)
    | Option.none => Option.none
  else Option.none

/-- The fields extracted from one test-case block
(openai_service.py 800-813). -/
def tcDictOfBlock (block : String) : Dict :=
  let title := pyStrip (extractSection "Title" block ["Description", "Steps", "Regression Needed"])
  let description := pyStrip (extractSection "Description" block ["Steps", "Regression Needed"])
  let steps := pyStrip (extractSection "Steps" block ["Regression Needed", "Title", "Description"])
  let regression_text := pyStrip (extractSection "Regression Needed" block ["Title", "Description", "Steps"])
  let regression_needed :=
    if regression_text ≠ "" then PyVal.bool (pyStartsWith (pyUpper regression_text) "YES")
    else PyVal.none
  [("title", .str title), ("description", .str description), ("steps", .str steps),
   ("regression_needed", regression_needed), ("regression_reason", .str regression_text)]

/-- `_parse_phase2_response.extract_test_case`. -/
def extractTestCase (number : Nat) (text : String) : Option Dict :=
  (testCaseBlock number text).map tcDictOfBlock

/-- First run of digits in a string: the `re.search` over a digit group in
`_parse_phase2_response` (openai_service.py 823-829). -/
def firstNumber (s : String) : Option Nat :=
  let ds := (s.toList.dropWhile (fun c => !c.isDigit)).takeWhile Char.isDigit
  if ds.isEmpty then Option.none
  else some (ds.foldl (fun acc c => acc * 10 + (c.toNat - 48)) 0)

/-- The top-level `regression_test_needed` of `_parse_phase2_response`
(openai_service.py 815-818): `Option.none` only when the uppercased section
text contains the literal substring `N/A`. -/
def phase2RegressionNeeded (regression_text : String) : PyVal :=
  if pyIn "N/A" (pyUpper regression_text) then PyVal.none
  else PyVal.bool (pyStartsWith (pyUpper regression_text) "YES")

/-- The list of test-case dicts produced by `_parse_phase2_response`
(openai_service.py 831-849), including the old-format fallback. -/
def phase2TestCases (output : String) : List Dict :=
  let regression_text := pyStrip (extractSection "Regression Test Needed" output p2DefaultStops)
  let num_text := pyStrip (extractSection "Number of Test Cases" output p2DefaultStops)
  let num_test_cases := (firstNumber num_text).getD 1
  let found := (List.range' 1 (min num_test_cases 5)).filterMap (fun i => extractTestCase i output)
  if found.isEmpty then
    let test_case_desc := extractSection "Test Case Description" output p2DefaultStops
    let test_case_steps := extractSection "Test Case Steps" output p2DefaultStops
    if test_case_desc ≠ "" || test_case_steps ≠ "" then
      [[("title", .str "Test Case"), ("description", .str test_case_desc),
        ("steps", .str test_case_steps),
        ("regression_needed", phase2RegressionNeeded regression_text),
        ("regression_reason", .str regression_text)]]
    else []
  else found

/-- `_parse_phase2_response` (openai_service.py 748-872). -/
def parsePhase2 (output : String) (ticket_analysis : Dict) : Dict :=
  let regression_text := pyStrip (extractSection "Regression Test Needed" output p2DefaultStops)
  let test_cases := phase2TestCases output
  let primary_test_case := test_cases.headD []
  [("issue_description", dictGet ticket_analysis "issue_description" (.str "")),
   ("root_cause", dictGet ticket_analysis "root_cause" (.str "")),
   ("issue_theme", dictGet ticket_analysis "issue_theme" (.str "Unknown Theme")),
   ("root_cause_theme", dictGet ticket_analysis "root_cause_theme" (.str "Unknown Root Cause Theme")),
   ("test_case_needed", dictGet ticket_analysis "test_case_needed" (.bool false)),
   ("test_case_needed_reason", dictGet ticket_analysis "test_case_needed_reason" (.str "")),
   ("regression_test_needed", phase2RegressionNeeded regression_text),
   ("regression_test_needed_reason", .str regression_text),
   ("test_cases", .listV (test_cases.map PyVal.dictV)),
   ("num_test_cases", .int test_cases.length),
   ("test_case_description", dictGet primary_test_case "description" (.str "")),
   ("test_case_steps", dictGet primary_test_case "steps" (.str "")),
   ("recommended_solution", .str (extractSection "Recommended Solution Approach" output p2DefaultStops)),
   ("additional_test_scenarios", .str (extractSection "Additional Test Scenarios" output p2DefaultStops)),
   ("search_results_summary", .str "")]

/-- The section labels of `_parse_validation_response`. -/
def validationSections : List String :=
  ["Validation Passed", "Overall Assessment", "Critical Issues",
   "Minor Issues", "Regeneration Needed", "Regeneration Feedback"]

/-- The regex `^[-•*]\s*` removal of `_parse_validation_response`. -/
def stripBulletMark (s : String) : String :=
  match s.toList with
  | c :: rest =>
    if c = '-' || c = '•' || c = '*' then String.mk (rest.dropWhile pyIsSpace) else s
  | [] => s

/-- The regex `^\d+[.)]\s*` removal of `_parse_validation_response`. -/
def stripNumberMark (s : String) : String :=
  let l := s.toList
  let ds := l.takeWhile Char.isDigit
  if ds.isEmpty then s
  else
    match l.drop ds.length with
    | c :: rest =>
      if c = '.' || c = ')' then String.mk (rest.dropWhile pyIsSpace) else s
    | [] => s

/-- Markers that cause an issue line to be skipped. -/
def issueSkipMarkers : List String := ["critical issues", "minor issues", "---", "==="]

/-- The issue-list cleanup loop of `_parse_validation_response`
(openai_service.py 660-687), shared by critical and minor issues. -/
def parseIssueList (text : String) : List String :=
  if pyUpper text ≠ "NONE" && text ≠ "" then
    ((pySplit text "\n").map pyStrip).filter (fun l => l ≠ "") |>.foldr
      (fun line acc =>
        if issueSkipMarkers.any (fun sk => pyIn sk (pyLower line)) then acc
        else
          let cleaned := pyStrip (stripNumberMark (stripBulletMark line))
          if cleaned ≠ "" && cleaned.length > 5 then cleaned :: acc else acc)
      []
  else []

/-- `_parse_validation_response` (openai_service.py 640-720). -/
def parseValidationResponse (output : String) : Dict :=
  let validation_passed_text := pyStrip (extractSection "Validation Passed" output validationSections)
  let validation_passed := pyStartsWith (pyUpper validation_passed_text) "YES"
  let critical_issues := parseIssueList (pyStrip (extractSection "Critical Issues" output validationSections))
  let minor_issues := parseIssueList (pyStrip (extractSection "Minor Issues" output validationSections))
  let regeneration_needed_text := pyStrip (extractSection "Regeneration Needed" output validationSections)
  let regeneration_needed := pyStartsWith (pyUpper regeneration_needed_text) "YES"
  let regeneration_feedback0 :=
    if regeneration_needed then pyStrip (extractSection "Regeneration Feedback" output validationSections)
    else ""
  let regeneration_feedback :=
    if regeneration_needed && regeneration_feedback0 = "" then
      if !critical_issues.isEmpty then
        "Critical issues found: " ++ String.intercalate "; " (critical_issues.take 3)
      else "Test cases need to be regenerated to better address the issue and root cause."
    else regeneration_feedback0
  let overall_assessment0 := pyStrip (extractSection "Overall Assessment" output validationSections)
  let overall_assessment :=
    if overall_assessment0 ≠ "" then overall_assessment0
    else if validation_passed then "Validation passed"
    else if !critical_issues.isEmpty then
      "Critical issues found: " ++ toString critical_issues.length ++ " issue(s)"
    else if !minor_issues.isEmpty then
      "Minor issues found: " ++ toString minor_issues.length ++ " issue(s)"
    else "Validation completed"
  [("validation_passed", .bool validation_passed),
   ("overall_assessment", .str overall_assessment),
   ("critical_issues", .listV (critical_issues.map PyVal.str)),
   ("minor_issues", .listV (minor_issues.map PyVal.str)),
   ("regeneration_needed", .bool regeneration_needed),
   ("regeneration_feedback", .str regeneration_feedback)]

/-! ## Gateway-backed service calls (openai_service.py)

Each call to the OpenAI chat endpoint is modelled by an
environment-supplied `Except String String`: `.ok text` is the model's
free-form reply, `.error msg` a raised gateway error (OpenAIError). -/

/-- A call made to the text-generation gateway, recorded in order. -/
inductive GatewayCall where
  | phase1
  | phase2
  | validate
  | regenerate (feedback : String)
deriving DecidableEq

/-- The feedback banner `_regenerate_test_cases_with_feedback` appends to
the root cause (openai_service.py 630). -/
def regenFeedbackBlob (feedback : String) : String :=
  "\n\n[VALIDATION FEEDBACK - CRITICAL ISSUES TO ADDRESS]:\n" ++ feedback ++
  "\n\nIMPORTANT: The previous test case generation had critical issues. When generating new test cases, you MUST address the feedback above. Ensure test cases directly address the issue and root cause, are complete, technically correct, and if root cause is external, focus on error handling/communication (not prevention)."

/-- The enhanced analysis dict built by
`_regenerate_test_cases_with_feedback` (openai_service.py 626-630). -/
def regenerateEnhancedAnalysis (ticket_analysis : Dict) (feedback : String) : Dict :=
  dictSet ticket_analysis "root_cause"
    (.str (asStr (dictGet ticket_analysis "root_cause" (.str "")) ++ regenFeedbackBlob feedback))

/-- `analyze_ticket_phase1`: gateway call then `_parse_phase1_response`;
an `OpenAIError` is re-raised as a Phase-1 exception
(openai_service.py 188-203). -/
def analyze_ticket_phase1 (gw : Except String String) : Except String Dict :=
  match gw with
  | .ok output => .ok (parsePhase1 output)
  | .error e => .error ("OpenAI API error in Phase 1: " ++ e)

/-- `generate_test_case_with_solutions`: gateway call then
`_parse_phase2_response` (openai_service.py 397-412). -/
def generate_test_case_with_solutions (ticket_analysis : Dict)
    (gw : Except String String) : Except String Dict :=
  match gw with
  | .ok output => .ok (parsePhase2 output ticket_analysis)
  | .error e => .error ("OpenAI API error in Phase 2: " ++ e)

/-- `_regenerate_test_cases_with_feedback` (openai_service.py 617-638). -/
def regenerate_test_cases_with_feedback (ticket_analysis : Dict) (feedback : String)
    (gw : Except String String) : Except String Dict :=
  generate_test_case_with_solutions (regenerateEnhancedAnalysis ticket_analysis feedback) gw

/-- The enhanced analysis dict built inside `validate_test_cases` before
regenerating (openai_service.py 590-597). -/
def validationEnhancedAnalysis (issue_description root_cause : String)
    (generated_test_cases : Dict) (regeneration_feedback : String) : Dict :=
  [("issue_description", .str issue_description),
   ("root_cause", .str root_cause),
   ("issue_theme", dictGet generated_test_cases "issue_theme" (.str "")),
   ("root_cause_theme", dictGet generated_test_cases "root_cause_theme" (.str "")),
   ("test_case_needed", .bool true),
   ("test_case_needed_reason", .str ("Validation feedback: " ++ pyTake regeneration_feedback 200))]

/-- `validate_test_cases` (openai_service.py 414-615): parse the validation
reply; when it asks for regeneration, regenerate through the gateway and
attach the result under `regenerated_test_cases` (else attach `None`).
Returns the calls it made to the gateway together with the outcome. -/
def validate_test_cases (issue_description root_cause : String)
    (generated_test_cases : Dict) (vGw regenGw : Except String String) :
    List GatewayCall × Except String Dict :=
  match vGw with
  | .error e => ([.validate], .error ("OpenAI API error in Phase 3 validation: " ++ e))
  | .ok output =>
    let validation_results := parseValidationResponse output
    if pyTruthy (dictGet validation_results "regeneration_needed" (.bool false)) then
      let regeneration_feedback := asStr (dictGet validation_results "regeneration_feedback" (.str ""))
      match regenerate_test_cases_with_feedback
          (validationEnhancedAnalysis issue_description root_cause generated_test_cases regeneration_feedback)
          regeneration_feedback regenGw with
      | .ok regenerated =>
        ([.validate, .regenerate regeneration_feedback],
         .ok (dictSet validation_results "regenerated_test_cases" (.dictV regenerated)))
      | .error e => ([.validate, .regenerate regeneration_feedback], .error e)
    else ([.validate], .ok (dictSet validation_results "regenerated_test_cases" PyVal.none))

/-! ## The analysis pipeline (src/app.py `get_ticket_analysis`) -/

/-- The environment of one `get_ticket_analysis` run: whether the module
global `openai_service` is configured, and the gateway reply for each call
site (Phase 1, Phase 2, the zero-test-case regeneration, the validation
call, and the regeneration made from inside validation). -/
structure PipelineEnv where
  openaiServicePresent : Bool
  phase1Gw : Except String String
  phase2Gw : Except String String
  regenZeroGw : Except String String
  validateGw : Except String String
  regenValidateGw : Except String String

/-- The synthetic feedback used when Phase 2 produced no test cases
(app.py 1587). -/
def noTestCasesFeedback : String :=
  "No test cases were generated in Phase 2. Please generate appropriate test cases for the issue and root cause."

/-- The early-return result when `test_case_needed` is false
(app.py 1529-1550). -/
def earlyReturnDict (issue_description root_cause : String) (ta : Dict) : Dict :=
  [("issue_description", .str issue_description),
   ("root_cause", .str root_cause),
   ("issue_theme", dictGet ta "issue_theme" (.str "Unknown Theme")),
   ("root_cause_theme", dictGet ta "root_cause_theme" (.str "Unknown Root Cause Theme")),
   ("test_case_needed", .bool false),
   ("test_case_needed_reason", dictGet ta "test_case_needed_reason" (.str "")),
   ("regression_test_needed", PyVal.none),
   ("regression_test_needed_reason", .str "N/A - Test case not needed"),
   ("test_cases", .listV []),
   ("num_test_cases", .int 0),
   ("test_case_description", .str "N/A - Test case not needed"),
   ("test_case_steps", .str "N/A - Test case not needed"),
   ("recommended_solution", .str "N/A - Test case not needed"),
   ("additional_test_scenarios", .str "N/A - Test case not needed"),
   ("search_queries_used", .listV []),
   ("search_results_summary", .str ""),
   ("documentation_references", .listV []),
   ("is_documented_limitation", .bool false),
   ("is_documented_prerequisite", .bool false),
   ("documentation_check_summary", .str "")]

/-- The synthetic result of the outer exception handler
(app.py 1649-1670). -/
def analysisFailedDict (error_msg : String) : Dict :=
  [("issue_description", .str "Analysis failed due to error"),
   ("root_cause", .str ("Unable to analyze: " ++ pyTake error_msg 200)),
   ("issue_theme", .str "Error"),
   ("root_cause_theme", .str "Error"),
   ("test_case_needed", .bool false),
   ("test_case_needed_reason", .str ("Analysis failed: " ++ pyTake error_msg 200)),
   ("regression_test_needed", PyVal.none),
   ("regression_test_needed_reason", .str "N/A - Analysis failed"),
   ("test_cases", .listV []),
   ("num_test_cases", .int 0),
   ("test_case_description", .str "Analysis failed"),
   ("test_case_steps", .str "Analysis failed"),
   ("recommended_solution", .str "Please retry the analysis"),
   ("additional_test_scenarios", .str ""),
   ("search_queries_used", .listV []),
   ("search_results_summary", .str ""),
   ("documentation_references", .listV []),
   ("is_documented_limitation", .bool false),
   ("is_documented_prerequisite", .bool false),
   ("documentation_check_summary", .str "")]

/-- The field defaults forced onto the Phase-2 result (app.py 1562-1567). -/
def phase2SetDefaults (d : Dict) : Dict :=
  dictSet (dictSet (dictSet (dictSet (dictSet (dictSet d
    "search_queries_used" (.listV []))
    "search_results_summary" (.str ""))
    "documentation_references" (.listV []))
    "is_documented_limitation" (.bool false))
    "is_documented_prerequisite" (.bool false))
    "documentation_check_summary" (.str "")

/-- The `has_test_cases` guard of Phase 3 (app.py 1576-1580). -/
def hasTestCases (enhanced_results : Dict) : Bool :=
  let test_cases_list := dictGet enhanced_results "test_cases" (.listV [])
  let num_test_cases := dictGet enhanced_results "num_test_cases" (.int 0)
  let test_case_description := asStr (dictGet enhanced_results "test_case_description" (.str ""))
  (pyTruthy test_cases_list && pyLen test_cases_list > 0) ||
  pyInt num_test_cases > 0 ||
  (test_case_description != "" &&
    !((["N/A - Test case not needed", "N/A", ""] : List String).contains test_case_description))

/-- Mark a result dict with the four validation fields written by the
pipeline on each Phase-3 outcome. -/
def withValidationFields (d : Dict) (validation_passed : PyVal)
    (validation_issues : PyVal) (validation_summary : String)
    (regeneration_attempted : Bool) : Dict :=
  dictSet (dictSet (dictSet (dictSet d
    "validation_passed" validation_passed)
    "validation_issues" validation_issues)
    "validation_summary" (.str validation_summary))
    "regeneration_attempted" (.bool regeneration_attempted)

/-- Phase 3 of `get_ticket_analysis` (app.py 1569-1641): either the
zero-test-case regeneration (with its own exception handler) or the
validation call (with its own exception handler), producing the final
result dict and the gateway calls made in this phase. -/
def phase3 (issue_description root_cause : String)
    (ticket_analysis enhanced_results : Dict)
    (regenZeroGw validateGw regenValidateGw : Except String String) :
    List GatewayCall × Dict :=
  if !hasTestCases enhanced_results then
    match regenerate_test_cases_with_feedback ticket_analysis noTestCasesFeedback regenZeroGw with
    | .ok regenerated_results =>
      ([.regenerate noTestCasesFeedback],
       withValidationFields regenerated_results (.bool true) (.listV [])
         "Test cases regenerated - no test cases were generated in Phase 2" true)
    | .error regen_error =>
      ([.regenerate noTestCasesFeedback],
       withValidationFields enhanced_results (.bool false)
         (.listV [.str "No test cases generated and regeneration failed"])
         ("No test cases generated. Regeneration failed: " ++ pyTake regen_error 200) true)
  else
    match validate_test_cases issue_description root_cause enhanced_results
        validateGw regenValidateGw with
    | (vcalls, .error validation_error) =>
      (vcalls,
       withValidationFields enhanced_results PyVal.none (.listV [])
         ("Validation failed: " ++ pyTake validation_error 200) false)
    | (vcalls, .ok validation_results) =>
      if pyTruthy (dictGet validation_results "regeneration_needed" (.bool false)) &&
         pyTruthy (dictGet validation_results "regenerated_test_cases" PyVal.none) then
        (vcalls,
         withValidationFields
           (asDict (dictGet validation_results "regenerated_test_cases" PyVal.none))
           (.bool true) (.listV [])
           "Test cases regenerated based on validation feedback" true)
      else
        let validation_summary0 := asStr (dictGet validation_results "overall_assessment" (.str ""))
        let validation_summary :=
          if validation_summary0 != "" then validation_summary0 else "Validation completed"
        let base := withValidationFields enhanced_results
          (dictGet validation_results "validation_passed" (.bool true))
          (dictGet validation_results "minor_issues" (.listV []))
          validation_summary false
        let withCrit :=
          if pyTruthy (dictGet validation_results "critical_issues" (.listV [])) then
            dictSet base "validation_critical_issues"
              (dictGet validation_results "critical_issues" (.listV []))
          else base
        (vcalls, withCrit)

/-- The body of the big `try` of `get_ticket_analysis`
(app.py 1464-1644); `.error` is an exception reaching the outer handler.
Also returns the gateway calls made, in order. -/
def pipelineBody (env : PipelineEnv) : List GatewayCall × Except String Dict :=
  match analyze_ticket_phase1 env.phase1Gw with
  | .error e => ([.phase1], .error e)
  | .ok ticket_analysis0 =>
    let issue_description := asStr (dictGet ticket_analysis0 "issue_description" (.str ""))
    let root_cause := asStr (dictGet ticket_analysis0 "root_cause" (.str ""))
    let ticket_analysis := applyValidationLogic ticket_analysis0
    if !pyTruthy (dictGet ticket_analysis "test_case_needed" PyVal.none) then
      ([.phase1], .ok (earlyReturnDict issue_description root_cause ticket_analysis))
    else
      match generate_test_case_with_solutions ticket_analysis env.phase2Gw with
      | .error e => ([.phase1, .phase2], .error e)
      | .ok enhanced_results0 =>
        let enhanced_results := phase2SetDefaults enhanced_results0
        let p3 := phase3 issue_description root_cause ticket_analysis enhanced_results
          env.regenZeroGw env.validateGw env.regenValidateGw
        ([.phase1, .phase2] ++ p3.1, .ok p3.2)

/-- `get_ticket_analysis` (app.py 1446-1670): the missing-service guard
raises; every exception from the body is converted into the synthetic
failure dict by the outer handler. -/
def get_ticket_analysis (env : PipelineEnv) : List GatewayCall × Except String Dict :=
  if !env.openaiServicePresent then
    ([], .error "OPENAI_API_KEY is not set. Please set it in your environment variables.")
  else
    match pipelineBody env with
    | (calls, .ok d) => (calls, .ok d)
    | (calls, .error e) => (calls, .ok (analysisFailedDict e))

/-! ## Bulk job orchestrator (src/bulk_processor.py) -/

/-- The outcome dict of `process_single_ticket`: a `success` flag and an
optional error string. -/
structure SingleResult where
  success : Bool
  error : Option String
deriving DecidableEq

/-- The collaborator outcomes consumed while processing one ticket:
the two Zendesk fetch status codes, the formatted conversation, and the
net outcome of the two per-analysis `try` bodies (analysis plus save),
where `.error` is a raised exception. -/
structure TicketEnv where
  ticketStatus : Int
  commentsStatus : Int
  conversation : String
  testCaseStep : Except String Unit
  priorityStep : Except String Unit

/-- `process_single_ticket` (bulk_processor.py 171-280): fetch failures and
an empty conversation fail the item; the two analysis steps are each run
inside their own `try`/`except`, so their outcomes — recorded here but
deliberately unused — never affect the returned result. -/
def process_single_ticket (env : TicketEnv)
    (priorityServicePresent run_test_case run_priority : Bool) : SingleResult :=
  if env.ticketStatus ≠ 200 then
    ⟨false, some ("Zendesk API error (ticket): " ++ toString env.ticketStatus)⟩
  else if env.commentsStatus ≠ 200 then
    ⟨false, some ("Zendesk API error (comments): " ++ toString env.commentsStatus)⟩
  else if env.conversation = "" then
    ⟨false, some "No conversation found"⟩
  else
    let _test_case_outcome : Except String Unit :=
      if run_test_case then env.testCaseStep else .ok ()
    let _priority_outcome : Except String Unit :=
      if run_priority && priorityServicePresent then env.priorityStep else .ok ()
    ⟨true, Option.none⟩

/-- One published progress update: the keyword arguments of a call to
`update_bulk_job` (absent argument = field not updated). -/
structure JobUpdate where
  status : Option String
  processedCount : Option Nat
  successCount : Option Nat
  failedCount : Option Nat
  ticketResults : Option (List (String × Option String))

/-- Record one item outcome in the `ticket_results` map
(`Option.none` = success, `some e` = failed with error `e`). -/
def trSet (m : List (String × Option String)) (k : String) (v : Option String) :
    List (String × Option String) :=
  match m with
  | [] => [(k, v)]
  | (k', v') :: rest => if k' = k then (k, v) :: rest else (k', v') :: trSet rest k v

/-- The outcome of the guarded `process_single_ticket` call for one item:
`.ok` a returned result dict, `.error` a raised exception. -/
abbrev ItemOutcome := Except String SingleResult

/-- The per-item loop of `BulkJobManager._run_job`
(bulk_processor.py 92-162): `flags k` is the value of
`not self._active_jobs.get(job_id, False)` observed at the boundary before
the `k`-th item.  Returns the remaining published updates. -/
def runJobAux (total : Nat) (flags : Nat → Bool) :
    List (String × ItemOutcome) → Nat → Nat → Nat →
    List (String × Option String) → List JobUpdate
  | [], processed, succ, failed, tr =>
    [⟨some (if processed = total then "completed" else "cancelled"),
      some processed, some succ, some failed, some tr⟩]
  | (ticket_id, outcome) :: rest, processed, succ, failed, tr =>
    if flags processed then
      ⟨some "cancelled", some processed, some succ, some failed, some tr⟩ ::
      [⟨some (if processed = total then "completed" else "cancelled"),
        some processed, some succ, some failed, some tr⟩]
    else
      let step : Nat × Nat × List (String × Option String) :=
        match outcome with
        | .ok result =>
          if result.success then (succ + 1, failed, trSet tr ticket_id Option.none)
          else (succ, failed + 1, trSet tr ticket_id (some (result.error.getD "Unknown error")))
        | .error e => (succ, failed + 1, trSet tr ticket_id (some (pyTake e 200)))
      ⟨Option.none, some (processed + 1), some step.1, some step.2.1, some step.2.2⟩ ::
      runJobAux total flags rest (processed + 1) step.1 step.2.1 step.2.2

/-- All updates published by one `_run_job` run: the initial
`status='running'` update followed by the loop's updates. -/
def runJob (items : List (String × ItemOutcome)) (flags : Nat → Bool) : List JobUpdate :=
  ⟨some "running", Option.none, Option.none, Option.none, Option.none⟩ ::
  runJobAux items.length flags items 0 0 0 []

/-- The `_active_jobs` registry of `BulkJobManager` (job id mapped to the
flag `True` = running, `False` = stop requested). -/
structure ManagerState where
  activeJobs : List (String × Bool)

/-- Association-list lookup used for `_active_jobs`. -/
def lookupFlag (job_id : String) : List (String × Bool) → Option Bool
  | [] => Option.none
  | (k, b) :: rest => if k = job_id then some b else lookupFlag job_id rest

/-- Lookup in `_active_jobs`. -/
def lookupActive (m : ManagerState) (job_id : String) : Option Bool :=
  lookupFlag job_id m.activeJobs

/-- `is_job_running` (bulk_processor.py 26-28):
`job_id in self._active_jobs and self._active_jobs[job_id]`. -/
def is_job_running (m : ManagerState) (job_id : String) : Bool :=
  match lookupActive m job_id with
  | some b => b
  | Option.none => false

/-- `stop_job` (bulk_processor.py 46-49): set the flag to `False` when the
job id is known. -/
def stop_job (m : ManagerState) (job_id : String) : ManagerState :=
  match lookupActive m job_id with
  | some _ => ⟨m.activeJobs.map (fun kv => if kv.1 = job_id then (kv.1, false) else kv)⟩
  | Option.none => m

/-- `cancel_job` (bulk_processor.py 315-329): signal only when the job is
currently running; returns whether cancellation was signalled. -/
def cancel_job (m : ManagerState) (job_id : String) : ManagerState × Bool :=
  if is_job_running m job_id then (stop_job m job_id, true)
  else (m, false)

/-- The worker's cancellation check `not self._active_jobs.get(job_id, False)`
(bulk_processor.py 94), as a function of the registry state. -/
def workerSeesCancel (m : ManagerState) (job_id : String) : Bool :=
  !((lookupActive m job_id).getD false)

/-! ## Concrete inputs used as counterexamples and witnesses -/

/-- A Phase-2 reply whose regression section reads `Not applicable`. -/
def c8Output : String := "Regression Test Needed:\nNot applicable\nNumber of Test Cases:\n0\n"

/-- A Phase-2 reply carrying one complete test case. -/
def oneTestCaseOutput : String :=
  "Regression Test Needed: Yes\nNumber of Test Cases:\n1\nTest Case 1:\nTitle: T\nDescription: D\nSteps:\nS\nRegression Needed: Yes\n"

/-- A Phase-1 reply classified as needing a test case (code bug). -/
def phase1NeededOutput : String :=
  "Root Cause:\nexception in handler\nTest Case Needed:\nYes\n"

/-- A Phase-1 reply with an unclear root cause and no functional gap. -/
def phase1UnclearOutput : String := "Root Cause:\nunclear\n"

/-- A validation reply requesting regeneration. -/
def validationRegenOutput : String :=
  "Validation Passed: No\nRegeneration Needed: Yes\nRegeneration Feedback: fix it\n"

/-- An environment in which the OpenAI service is not configured. -/
def envNoService : PipelineEnv := ⟨false, .ok "", .ok "", .ok "", .ok "", .ok ""⟩

/-- An environment whose Phase-1 reply leads to the early return. -/
def envEarlyReturn : PipelineEnv :=
  ⟨true, .ok phase1UnclearOutput, .ok "", .ok "", .ok "", .ok ""⟩

/-- An environment in which Phase 1 raises. -/
def envPhase1Fails : PipelineEnv :=
  ⟨true, .error "boom", .ok "", .ok "", .ok "", .ok ""⟩

/-- An environment in which Phase 2 yields an empty reply (zero test
cases) and the regeneration succeeds. -/
def envZeroWitness : PipelineEnv :=
  ⟨true, .ok phase1NeededOutput, .ok "", .ok oneTestCaseOutput, .ok "", .ok ""⟩

/-- An environment in which Phase 2 yields a test case and validation
requests (and gets) a regeneration. -/
def envValWitness : PipelineEnv :=
  ⟨true, .ok phase1NeededOutput, .ok oneTestCaseOutput, .ok "",
   .ok validationRegenOutput, .ok oneTestCaseOutput⟩

/-- A one-item batch whose item succeeds. -/
def c6Items : List (String × ItemOutcome) := [("t1", Except.ok ⟨true, Option.none⟩)]

/-- A schedule that never cancels. -/
def c6Flags : Nat → Bool := fun _ => false

/-- The per-item update published for the batch above. -/
def c6Update : JobUpdate :=
  ⟨Option.none, some 1, some 1, some 0, some [("t1", Option.none)]⟩

/-- A two-item batch. -/
def c7Items : List (String × ItemOutcome) :=
  [("t1", Except.ok ⟨true, Option.none⟩), ("t2", Except.ok ⟨true, Option.none⟩)]

/-- A schedule observed as cancelled from the second boundary on. -/
def c7Flags : Nat → Bool := fun j => decide (1 ≤ j)

/-- A registry with one running job. -/
def c7Manager : ManagerState := ⟨[("job-1", true)]⟩

/-- A ticket whose fetches succeed but whose two analysis steps both
raise. -/
def c9Env : TicketEnv :=
  ⟨200, 200, "conversation",
   .error "test case analysis failed", .error "priority analysis failed"⟩

/-! ### Dict lemmas -/

theorem dictGet_dictSet_self (d : Dict) (k : String) (v dflt : PyVal) :
    dictGet (dictSet d k v) k dflt = v := by
  induction d with
  | nil => simp [dictSet, dictGet]
  | cons kv rest ih =>
    obtain ⟨k', v'⟩ := kv
    by_cases h : k' = k <;> simp [dictSet, dictGet, h, ih]

theorem dictGet_dictSet_ne (d : Dict) (k k' : String) (v dflt : PyVal)
    (h : k' ≠ k) : dictGet (dictSet d k v) k' dflt = dictGet d k' dflt := by
  induction d with
  | nil => simp [dictSet, dictGet, Ne.symm h]
  | cons kv rest ih =>
    obtain ⟨k₀, v₀⟩ := kv
    by_cases h₀ : k₀ = k
    · simp [dictSet, dictGet, h₀, Ne.symm h]
    · by_cases h₁ : k₀ = k' <;> simp [dictSet, dictGet, h₀, h₁, ih, h]

theorem dictHas_dictSet (d : Dict) (k k' : String) (v : PyVal) :
    dictHas (dictSet d k v) k' = (k == k' || dictHas d k') := by
  induction d with
  | nil => simp [dictSet, dictHas]
  | cons kv rest ih =>
    obtain ⟨k₀, v₀⟩ := kv
    by_cases h₀ : k₀ = k
    · subst h₀
      simp [dictSet, dictHas]
    · simp only [dictSet, if_neg h₀, dictHas, ih]
      cases hh : (k₀ == k') <;> cases hk : (k == k') <;> simp [hh, hk]

/-- Projecting `test_case_needed` through an override chain of the shape of
app.py 1514-1525. -/
theorem needed_of_chain (ta : Dict) (c1 c2 c3 c4 : Bool) (r1 r2 r3 r4 : PyVal) :
    dictGet
      (if c1 then
        dictSet (dictSet ta "test_case_needed" (PyVal.bool true)) "test_case_needed_reason" r1
      else if c2 then
        dictSet (dictSet ta "test_case_needed" (PyVal.bool false)) "test_case_needed_reason" r2
      else if c3 then
        dictSet (dictSet ta "test_case_needed" (PyVal.bool true)) "test_case_needed_reason" r3
      else if c4 then
        dictSet (dictSet ta "test_case_needed" (PyVal.bool false)) "test_case_needed_reason" r4
      else ta) "test_case_needed" PyVal.none =
    (if c1 then PyVal.bool true
     else if c2 then PyVal.bool false
     else if c3 then PyVal.bool true
     else if c4 then PyVal.bool false
     else dictGet ta "test_case_needed" PyVal.none) := by
  have hget : ∀ (d : Dict) (v r : PyVal),
      dictGet (dictSet (dictSet d "test_case_needed" v) "test_case_needed_reason" r)
        "test_case_needed" PyVal.none = v := by
    intro d v r
    rw [dictGet_dictSet_ne _ _ _ _ _ (by decide), dictGet_dictSet_self]
  cases c1 <;> cases c2 <;> cases c3 <;> cases c4 <;> simp [hget]

/-- Characterization of the override: `applyValidationLogic` computes the
claim's decision table on the claim's five predicates. -/
theorem applyValidationLogic_needed (ta : Dict) :
    dictGet (applyValidationLogic ta) "test_case_needed" PyVal.none =
      claimDecisionTable
        (claimRootCauseUnclear (asStr (dictGet ta "root_cause" (.str ""))))
        (claimFunctionalGap (asStr (dictGet ta "issue_description" (.str ""))))
        (claimCodeBugIndicator (asStr (dictGet ta "root_cause" (.str ""))))
        (claimPureUserMistake (asStr (dictGet ta "issue_description" (.str "")))
          (asStr (dictGet ta "root_cause" (.str ""))) ||
         claimProductLimitation (asStr (dictGet ta "issue_description" (.str "")))
          (asStr (dictGet ta "root_cause" (.str ""))))
        (dictGet ta "test_case_needed" PyVal.none) := by
  simp only [applyValidationLogic, lowerOrEmpty_eq, claimDecisionTable,
    claimRootCauseUnclear, claimFunctionalGap, claimCodeBugIndicator,
    claimPureUserMistake, claimProductLimitation, claimCombinedText]
  rw [needed_of_chain]

/-- When rule 2 fires (root cause unclear, no functional gap), the override
writes `False` together with the rule-2 reason string. -/
theorem applyValidationLogic_rule2 (ta : Dict)
    (h1 : anyPhraseIn rootCauseNotIdentifiedPhrases
      (pyLower (asStr (dictGet ta "root_cause" (.str "")))) = true)
    (h2 : anyPhraseIn functionalGapPhrases
      (pyLower (asStr (dictGet ta "issue_description" (.str "")))) = false) :
    applyValidationLogic ta =
      dictSet (dictSet ta "test_case_needed" (PyVal.bool false))
        "test_case_needed_reason" (PyVal.str rule2Reason) := by
  simp only [applyValidationLogic, lowerOrEmpty_eq, h1, h2]
  simp

/-! ### Projection lemmas through the pipeline's dict surgery -/

theorem dictGet_phase2SetDefaults (d : Dict) (k : String) (dflt : PyVal)
    (h1 : k ≠ "search_queries_used") (h2 : k ≠ "search_results_summary")
    (h3 : k ≠ "documentation_references") (h4 : k ≠ "is_documented_limitation")
    (h5 : k ≠ "is_documented_prerequisite") (h6 : k ≠ "documentation_check_summary") :
    dictGet (phase2SetDefaults d) k dflt = dictGet d k dflt := by
  unfold phase2SetDefaults
  rw [dictGet_dictSet_ne _ _ _ _ _ h6, dictGet_dictSet_ne _ _ _ _ _ h5,
      dictGet_dictSet_ne _ _ _ _ _ h4, dictGet_dictSet_ne _ _ _ _ _ h3,
      dictGet_dictSet_ne _ _ _ _ _ h2, dictGet_dictSet_ne _ _ _ _ _ h1]

theorem parsePhase2_test_cases_proj (out : String) (ta : Dict) (dflt : PyVal) :
    dictGet (parsePhase2 out ta) "test_cases" dflt =
      PyVal.listV ((phase2TestCases out).map PyVal.dictV) := rfl

theorem parsePhase2_num_proj (out : String) (ta : Dict) (dflt : PyVal) :
    dictGet (parsePhase2 out ta) "num_test_cases" dflt =
      PyVal.int (phase2TestCases out).length := rfl

set_option maxHeartbeats 2000000 in
theorem parsePhase2_desc_proj (out : String) (ta : Dict) (dflt : PyVal) :
    dictGet (parsePhase2 out ta) "test_case_description" dflt =
      dictGet ((phase2TestCases out).headD []) "description" (PyVal.str "") := rfl

/-- The `has_test_cases` guard, applied to what Phase 2 actually returns,
holds exactly when the parser produced at least one test case. -/
theorem hasTestCases_phase2 (out : String) (ta : Dict) :
    hasTestCases (phase2SetDefaults (parsePhase2 out ta)) =
      !(phase2TestCases out).isEmpty := by
  unfold hasTestCases
  rw [dictGet_phase2SetDefaults _ _ _ (by decide) (by decide) (by decide) (by decide)
        (by decide) (by decide),
      dictGet_phase2SetDefaults _ _ _ (by decide) (by decide) (by decide) (by decide)
        (by decide) (by decide),
      dictGet_phase2SetDefaults _ _ _ (by decide) (by decide) (by decide) (by decide)
        (by decide) (by decide),
      parsePhase2_test_cases_proj, parsePhase2_num_proj, parsePhase2_desc_proj]
  cases h : phase2TestCases out with
  | nil => simp [pyTruthy, pyLen, pyInt, asStr, dictGet]
  | cons t ts => simp [pyTruthy, pyLen, pyInt]

theorem withValidationFields_passed (d : Dict) (vp vi : PyVal) (vs : String)
    (ra : Bool) (dflt : PyVal) :
    dictGet (withValidationFields d vp vi vs ra) "validation_passed" dflt = vp := by
  unfold withValidationFields
  rw [dictGet_dictSet_ne _ _ _ _ _ (by decide), dictGet_dictSet_ne _ _ _ _ _ (by decide),
      dictGet_dictSet_ne _ _ _ _ _ (by decide), dictGet_dictSet_self]

theorem withValidationFields_issues (d : Dict) (vp vi : PyVal) (vs : String)
    (ra : Bool) (dflt : PyVal) :
    dictGet (withValidationFields d vp vi vs ra) "validation_issues" dflt = vi := by
  unfold withValidationFields
  rw [dictGet_dictSet_ne _ _ _ _ _ (by decide), dictGet_dictSet_ne _ _ _ _ _ (by decide),
      dictGet_dictSet_self]

theorem withValidationFields_attempted (d : Dict) (vp vi : PyVal) (vs : String)
    (ra : Bool) (dflt : PyVal) :
    dictGet (withValidationFields d vp vi vs ra) "regeneration_attempted" dflt =
      PyVal.bool ra := by
  unfold withValidationFields
  rw [dictGet_dictSet_self]

theorem dictHas_withValidationFields_passed (d : Dict) (vp vi : PyVal) (vs : String)
    (ra : Bool) :
    dictHas (withValidationFields d vp vi vs ra) "validation_passed" = true := by
  unfold withValidationFields
  rw [dictHas_dictSet, dictHas_dictSet, dictHas_dictSet, dictHas_dictSet]
  simp

theorem dictHas_withValidationFields_attempted (d : Dict) (vp vi : PyVal) (vs : String)
    (ra : Bool) :
    dictHas (withValidationFields d vp vi vs ra) "regeneration_attempted" = true := by
  unfold withValidationFields
  rw [dictHas_dictSet]
  simp

theorem parseValidation_passed_proj (out : String) (dflt : PyVal) :
    dictGet (parseValidationResponse out) "validation_passed" dflt =
      PyVal.bool (pyStartsWith (pyUpper (pyStrip
        (extractSection "Validation Passed" out validationSections))) "YES") := rfl

/-! ### Pipeline branch lemmas -/

theorem get_ticket_analysis_service (env : PipelineEnv)
    (hs : env.openaiServicePresent = true) :
    get_ticket_analysis env =
      (match pipelineBody env with
       | (calls, .ok d) => (calls, .ok d)
       | (calls, .error e) => (calls, .ok (analysisFailedDict e))) := by
  unfold get_ticket_analysis
  rw [hs, if_neg (by decide)]

theorem pipelineBody_phase1_error (env : PipelineEnv) (e : String)
    (h : env.phase1Gw = .error e) :
    pipelineBody env = ([.phase1], .error ("OpenAI API error in Phase 1: " ++ e)) := by
  simp [pipelineBody, analyze_ticket_phase1, h]

theorem pipelineBody_early (env : PipelineEnv) (out1 : String)
    (h1 : env.phase1Gw = .ok out1)
    (hneed : pyTruthy (dictGet (applyValidationLogic (parsePhase1 out1))
      "test_case_needed" PyVal.none) = false) :
    pipelineBody env =
      ([.phase1], .ok (earlyReturnDict
        (asStr (dictGet (parsePhase1 out1) "issue_description" (.str "")))
        (asStr (dictGet (parsePhase1 out1) "root_cause" (.str "")))
        (applyValidationLogic (parsePhase1 out1)))) := by
  simp [pipelineBody, analyze_ticket_phase1, h1, hneed]

theorem pipelineBody_main (env : PipelineEnv) (out1 out2 : String)
    (h1 : env.phase1Gw = .ok out1)
    (hneed : pyTruthy (dictGet (applyValidationLogic (parsePhase1 out1))
      "test_case_needed" PyVal.none) = true)
    (h2 : env.phase2Gw = .ok out2) :
    pipelineBody env =
      ([.phase1, .phase2] ++
        (phase3 (asStr (dictGet (parsePhase1 out1) "issue_description" (.str "")))
          (asStr (dictGet (parsePhase1 out1) "root_cause" (.str "")))
          (applyValidationLogic (parsePhase1 out1))
          (phase2SetDefaults (parsePhase2 out2 (applyValidationLogic (parsePhase1 out1))))
          env.regenZeroGw env.validateGw env.regenValidateGw).1,
       .ok (phase3 (asStr (dictGet (parsePhase1 out1) "issue_description" (.str "")))
          (asStr (dictGet (parsePhase1 out1) "root_cause" (.str "")))
          (applyValidationLogic (parsePhase1 out1))
          (phase2SetDefaults (parsePhase2 out2 (applyValidationLogic (parsePhase1 out1))))
          env.regenZeroGw env.validateGw env.regenValidateGw).2) := by
  simp [pipelineBody, analyze_ticket_phase1, generate_test_case_with_solutions,
    h1, h2, hneed]

theorem phase3_zero_ok (issue root : String) (ta : Dict) (out2 rout : String)
    (vGw rGw : Except String String) (htc : phase2TestCases out2 = []) :
    phase3 issue root ta (phase2SetDefaults (parsePhase2 out2 ta)) (.ok rout) vGw rGw =
      ([.regenerate noTestCasesFeedback],
       withValidationFields
         (parsePhase2 rout (regenerateEnhancedAnalysis ta noTestCasesFeedback))
         (.bool true) (.listV [])
         "Test cases regenerated - no test cases were generated in Phase 2" true) := by
  unfold phase3
  rw [hasTestCases_phase2, htc]
  simp [regenerate_test_cases_with_feedback, generate_test_case_with_solutions]

theorem phase3_zero_error (issue root : String) (ta : Dict) (out2 e : String)
    (vGw rGw : Except String String) (htc : phase2TestCases out2 = []) :
    phase3 issue root ta (phase2SetDefaults (parsePhase2 out2 ta)) (.error e) vGw rGw =
      ([.regenerate noTestCasesFeedback],
       withValidationFields (phase2SetDefaults (parsePhase2 out2 ta)) (.bool false)
         (.listV [.str "No test cases generated and regeneration failed"])
         ("No test cases generated. Regeneration failed: " ++
           pyTake ("OpenAI API error in Phase 2: " ++ e) 200) true) := by
  unfold phase3
  rw [hasTestCases_phase2, htc]
  simp [regenerate_test_cases_with_feedback, generate_test_case_with_solutions]

theorem validate_regen_ok (issue root : String) (er : Dict) (vout rvout : String)
    (hrn : pyTruthy (dictGet (parseValidationResponse vout)
      "regeneration_needed" (.bool false)) = true) :
    validate_test_cases issue root er (.ok vout) (.ok rvout) =
      ([.validate, .regenerate (asStr (dictGet (parseValidationResponse vout)
          "regeneration_feedback" (.str "")))],
       .ok (dictSet (parseValidationResponse vout) "regenerated_test_cases"
         (.dictV (parsePhase2 rvout (regenerateEnhancedAnalysis
           (validationEnhancedAnalysis issue root er
             (asStr (dictGet (parseValidationResponse vout) "regeneration_feedback" (.str ""))))
           (asStr (dictGet (parseValidationResponse vout) "regeneration_feedback" (.str "")))))))) := by
  unfold validate_test_cases regenerate_test_cases_with_feedback generate_test_case_with_solutions
  simp [hrn]

theorem phase3_validate_error_eq (issue root : String) (ta : Dict) (out2 : String)
    (rGw vGw rvGw : Except String String) (vcalls : List GatewayCall) (ve : String)
    (htc : phase2TestCases out2 ≠ [])
    (hv : validate_test_cases issue root (phase2SetDefaults (parsePhase2 out2 ta))
      vGw rvGw = (vcalls, .error ve)) :
    phase3 issue root ta (phase2SetDefaults (parsePhase2 out2 ta)) rGw vGw rvGw =
      (vcalls, withValidationFields (phase2SetDefaults (parsePhase2 out2 ta))
        PyVal.none (.listV []) ("Validation failed: " ++ pyTake ve 200) false) := by
  unfold phase3
  rw [hasTestCases_phase2]
  cases hl : phase2TestCases out2 with
  | nil => exact absurd hl htc
  | cons t ts =>
    simp [hv]

theorem phase3_validate_regen_eq (issue root : String) (ta : Dict) (out2 : String)
    (rGw vGw rvGw : Except String String) (vcalls : List GatewayCall) (vr : Dict)
    (htc : phase2TestCases out2 ≠ [])
    (hv : validate_test_cases issue root (phase2SetDefaults (parsePhase2 out2 ta))
      vGw rvGw = (vcalls, .ok vr))
    (hc1 : pyTruthy (dictGet vr "regeneration_needed" (.bool false)) = true)
    (hc2 : pyTruthy (dictGet vr "regenerated_test_cases" PyVal.none) = true) :
    phase3 issue root ta (phase2SetDefaults (parsePhase2 out2 ta)) rGw vGw rvGw =
      (vcalls,
       withValidationFields (asDict (dictGet vr "regenerated_test_cases" PyVal.none))
         (.bool true) (.listV []) "Test cases regenerated based on validation feedback" true) := by
  unfold phase3
  rw [hasTestCases_phase2]
  cases hl : phase2TestCases out2 with
  | nil => exact absurd hl htc
  | cons t ts =>
    simp [hv, hc1, hc2]

theorem phase3_validate_plain_fields (issue root : String) (ta : Dict) (out2 : String)
    (rGw vGw rvGw : Except String String) (vcalls : List GatewayCall) (vr : Dict)
    (htc : phase2TestCases out2 ≠ [])
    (hv : validate_test_cases issue root (phase2SetDefaults (parsePhase2 out2 ta))
      vGw rvGw = (vcalls, .ok vr))
    (hcond : (pyTruthy (dictGet vr "regeneration_needed" (.bool false)) &&
      pyTruthy (dictGet vr "regenerated_test_cases" PyVal.none)) = false) :
    dictGet (phase3 issue root ta (phase2SetDefaults (parsePhase2 out2 ta)) rGw vGw rvGw).2
      "validation_passed" PyVal.none = dictGet vr "validation_passed" (.bool true) ∧
    dictGet (phase3 issue root ta (phase2SetDefaults (parsePhase2 out2 ta)) rGw vGw rvGw).2
      "regeneration_attempted" PyVal.none = PyVal.bool false ∧
    dictHas (phase3 issue root ta (phase2SetDefaults (parsePhase2 out2 ta)) rGw vGw rvGw).2
      "validation_passed" = true ∧
    dictHas (phase3 issue root ta (phase2SetDefaults (parsePhase2 out2 ta)) rGw vGw rvGw).2
      "regeneration_attempted" = true := by
  have hPb : (pyTruthy (dictGet vr "regeneration_needed" (PyVal.bool false)) &&
      pyTruthy (dictGet vr "regenerated_test_cases" PyVal.none)) ≠ true := by
    rw [hcond]
    decide
  unfold phase3
  rw [hasTestCases_phase2]
  cases hl : phase2TestCases out2 with
  | nil => exact absurd hl htc
  | cons t ts =>
    by_cases hcrit : pyTruthy (dictGet vr "critical_issues" (PyVal.listV [])) = true <;>
      simp +decide [hv, hPb, hcrit, withValidationFields_passed,
        withValidationFields_attempted, dictGet_dictSet_ne, dictHas_dictSet,
        dictHas_withValidationFields_passed, dictHas_withValidationFields_attempted]

/-- A result of a successful `validate_test_cases` call always carries a
boolean `validation_passed`. -/
theorem validate_ok_passed_bool (issue root : String) (er : Dict)
    (vGw rGw : Except String String) (vcalls : List GatewayCall) (vr : Dict)
    (h : validate_test_cases issue root er vGw rGw = (vcalls, .ok vr)) :
    ∃ b, dictGet vr "validation_passed" (.bool true) = PyVal.bool b := by
  cases hv : vGw with
  | error e =>
    rw [hv] at h
    simp [validate_test_cases] at h
  | ok vout =>
    rw [hv] at h
    simp only [validate_test_cases] at h
    by_cases hrn : pyTruthy (dictGet (parseValidationResponse vout)
      "regeneration_needed" (.bool false)) = true
    · rw [if_pos hrn] at h
      cases hr : rGw with
      | error e =>
        rw [hr] at h
        simp [regenerate_test_cases_with_feedback, generate_test_case_with_solutions] at h
      | ok rout =>
        rw [hr] at h
        simp only [regenerate_test_cases_with_feedback, generate_test_case_with_solutions] at h
        have hvr : dictSet (parseValidationResponse vout) "regenerated_test_cases" _ = vr :=
          Except.ok.inj (Prod.ext_iff.mp h).2
        rw [← hvr, dictGet_dictSet_ne _ _ _ _ _ (by decide), parseValidation_passed_proj]
        exact ⟨_, rfl⟩
    · rw [if_neg hrn] at h
      have hvr : dictSet (parseValidationResponse vout) "regenerated_test_cases" PyVal.none = vr :=
        Except.ok.inj (Prod.ext_iff.mp h).2
      rw [← hvr, dictGet_dictSet_ne _ _ _ _ _ (by decide), parseValidation_passed_proj]
      exact ⟨_, rfl⟩

/-- A parsed Phase-2 dict is a non-empty (hence truthy) dict. -/
theorem parsePhase2_nonempty (out : String) (ta : Dict) :
    (parsePhase2 out ta).isEmpty = false := rfl

/-! ### Claim C3 -/

/-- C3 counterexample: with the module-level OpenAI service unconfigured,
`get_ticket_analysis` raises (the guard at app.py 1458-1459) instead of
returning a result dict — so an exception does escape for every
conversation in that configuration. -/
theorem pipeline_raises_without_service :
    (get_ticket_analysis envNoService).2 =
      Except.error "OPENAI_API_KEY is not set. Please set it in your environment variables." := rfl

/-- C3 amended: provided the OpenAI service is configured, no exception
escapes `get_ticket_analysis`: every run returns a result dict, and when
the Phase-1 gateway call fails the returned dict's `issue_description`
and `root_cause` describe the failure in human-readable text. -/
theorem pipeline_total_with_service (env : PipelineEnv) (e : String)
    (hs : env.openaiServicePresent = true) :
    (∃ d, (get_ticket_analysis env).2 = Except.ok d) ∧
    (env.phase1Gw = Except.error e →
      (get_ticket_analysis env).2 =
        Except.ok (analysisFailedDict ("OpenAI API error in Phase 1: " ++ e)) ∧
      dictGet (analysisFailedDict ("OpenAI API error in Phase 1: " ++ e))
        "issue_description" PyVal.none = PyVal.str "Analysis failed due to error" ∧
      dictGet (analysisFailedDict ("OpenAI API error in Phase 1: " ++ e))
        "root_cause" PyVal.none =
        PyVal.str ("Unable to analyze: " ++
          pyTake ("OpenAI API error in Phase 1: " ++ e) 200)) := by
  constructor
  · rcases hpb : pipelineBody env with ⟨calls, r⟩
    rw [get_ticket_analysis_service env hs, hpb]
    cases r with
    | ok d => exact ⟨d, rfl⟩
    | error e' => exact ⟨analysisFailedDict e', rfl⟩
  · intro h1
    refine ⟨?_, rfl, rfl⟩
    rw [get_ticket_analysis_service env hs, pipelineBody_phase1_error env e h1]

/-- Witness for the amended C3, at an environment whose Phase-1 call
raises. -/
theorem pipeline_total_with_service_witness :
    (get_ticket_analysis envPhase1Fails).2 =
      Except.ok (analysisFailedDict ("OpenAI API error in Phase 1: " ++ "boom")) :=
  ((pipeline_total_with_service envPhase1Fails "boom" rfl).2 rfl).1

/-! ### Claim C4 -/

/-- C4: whenever Phase 2 produces zero test cases (on the generating path),
the pipeline bypasses the validation call, performs exactly one
regeneration with the synthetic feedback message, and the result carries
`regeneration_attempted = true` whether that regeneration call succeeds
or raises. -/
theorem zero_test_cases_regenerates_once (env : PipelineEnv) (out1 out2 : String)
    (hs : env.openaiServicePresent = true)
    (h1 : env.phase1Gw = .ok out1)
    (hneed : pyTruthy (dictGet (applyValidationLogic (parsePhase1 out1))
      "test_case_needed" PyVal.none) = true)
    (h2 : env.phase2Gw = .ok out2)
    (htc : phase2TestCases out2 = []) :
    (get_ticket_analysis env).1 = [.phase1, .phase2, .regenerate noTestCasesFeedback] ∧
    ∃ d, (get_ticket_analysis env).2 = Except.ok d ∧
      dictGet d "regeneration_attempted" PyVal.none = PyVal.bool true := by
  rw [get_ticket_analysis_service env hs, pipelineBody_main env out1 out2 h1 hneed h2]
  cases hr : env.regenZeroGw with
  | ok rout =>
    rw [phase3_zero_ok _ _ _ _ _ _ _ htc]
    exact ⟨rfl, _, rfl, withValidationFields_attempted _ _ _ _ _ _⟩
  | error e' =>
    rw [phase3_zero_error _ _ _ _ _ _ _ htc]
    exact ⟨rfl, _, rfl, withValidationFields_attempted _ _ _ _ _ _⟩

/-- Witness for C4, at an environment whose Phase-2 reply is empty. -/
theorem zero_test_cases_regenerates_once_witness :
    (get_ticket_analysis envZeroWitness).1 =
      [.phase1, .phase2, .regenerate noTestCasesFeedback] :=
  (zero_test_cases_regenerates_once envZeroWitness phase1NeededOutput "" rfl rfl rfl rfl rfl).1

/-! ### Claim C5 -/

/-- C5 counterexample: the early-return result produced when
`test_case_needed` is false carries neither a `validation_passed` nor a
`regeneration_attempted` field, contradicting the claim that every
returned result carries both. -/
theorem early_return_lacks_validation_fields :
    ((get_ticket_analysis envEarlyReturn).2.map
      (fun d => (dictHas d "validation_passed", dictHas d "regeneration_attempted"))) =
      Except.ok (false, false) := rfl

/-- C5 amended: results produced on the generating path (Phase 1 succeeded,
`testCaseNeeded` true after the override, Phase 2 succeeded) always carry a
`validation_passed` field — null exactly when the validation phase itself
raised — and a boolean `regeneration_attempted` field; the early-return
result and the Phase-1-failure result carry neither field. -/
theorem generation_path_validation_fields (env : PipelineEnv) (out1 out2 : String)
    (hs : env.openaiServicePresent = true)
    (h1 : env.phase1Gw = .ok out1)
    (hneed : pyTruthy (dictGet (applyValidationLogic (parsePhase1 out1))
      "test_case_needed" PyVal.none) = true)
    (h2 : env.phase2Gw = .ok out2) :
    (∃ d, (get_ticket_analysis env).2 = Except.ok d ∧
      dictHas d "validation_passed" = true ∧
      dictHas d "regeneration_attempted" = true ∧
      (∃ b, dictGet d "regeneration_attempted" PyVal.none = PyVal.bool b) ∧
      (dictGet d "validation_passed" PyVal.none = PyVal.none ↔
        phase2TestCases out2 ≠ [] ∧
        ∃ e, (validate_test_cases
          (asStr (dictGet (parsePhase1 out1) "issue_description" (.str "")))
          (asStr (dictGet (parsePhase1 out1) "root_cause" (.str "")))
          (phase2SetDefaults (parsePhase2 out2 (applyValidationLogic (parsePhase1 out1))))
          env.validateGw env.regenValidateGw).2 = Except.error e)) ∧
    (∀ i r ta, dictHas (earlyReturnDict i r ta) "validation_passed" = false ∧
      dictHas (earlyReturnDict i r ta) "regeneration_attempted" = false) ∧
    (∀ e, dictHas (analysisFailedDict e) "validation_passed" = false ∧
      dictHas (analysisFailedDict e) "regeneration_attempted" = false) := by
  refine ⟨?_, fun i r ta => ⟨rfl, rfl⟩, fun e => ⟨rfl, rfl⟩⟩
  rw [get_ticket_analysis_service env hs, pipelineBody_main env out1 out2 h1 hneed h2]
  by_cases htc : phase2TestCases out2 = []
  · cases hr : env.regenZeroGw with
    | ok rout =>
      rw [phase3_zero_ok _ _ _ _ _ _ _ htc]
      refine ⟨_, rfl, dictHas_withValidationFields_passed _ _ _ _ _,
        dictHas_withValidationFields_attempted _ _ _ _ _,
        ⟨true, withValidationFields_attempted _ _ _ _ _ _⟩, ?_⟩
      rw [withValidationFields_passed]
      exact iff_of_false (fun hc => PyVal.noConfusion hc) (fun hc => hc.1 htc)
    | error e' =>
      rw [phase3_zero_error _ _ _ _ _ _ _ htc]
      refine ⟨_, rfl, dictHas_withValidationFields_passed _ _ _ _ _,
        dictHas_withValidationFields_attempted _ _ _ _ _,
        ⟨true, withValidationFields_attempted _ _ _ _ _ _⟩, ?_⟩
      rw [withValidationFields_passed]
      exact iff_of_false (fun hc => PyVal.noConfusion hc) (fun hc => hc.1 htc)
  · rcases hvv : validate_test_cases
        (asStr (dictGet (parsePhase1 out1) "issue_description" (.str "")))
        (asStr (dictGet (parsePhase1 out1) "root_cause" (.str "")))
        (phase2SetDefaults (parsePhase2 out2 (applyValidationLogic (parsePhase1 out1))))
        env.validateGw env.regenValidateGw with ⟨vcalls, vres⟩
    cases vres with
    | error ve =>
      rw [phase3_validate_error_eq _ _ _ _ _ _ _ _ _ htc hvv]
      refine ⟨_, rfl, dictHas_withValidationFields_passed _ _ _ _ _,
        dictHas_withValidationFields_attempted _ _ _ _ _,
        ⟨false, withValidationFields_attempted _ _ _ _ _ _⟩, ?_⟩
      rw [withValidationFields_passed]
      exact iff_of_true rfl ⟨htc, ve, rfl⟩
    | ok vr =>
      by_cases hcnd : (pyTruthy (dictGet vr "regeneration_needed" (.bool false)) &&
          pyTruthy (dictGet vr "regenerated_test_cases" PyVal.none)) = true
      · obtain ⟨hc1, hc2⟩ := Bool.and_eq_true_iff.mp hcnd
        rw [phase3_validate_regen_eq _ _ _ _ _ _ _ _ _ htc hvv hc1 hc2]
        refine ⟨_, rfl, dictHas_withValidationFields_passed _ _ _ _ _,
          dictHas_withValidationFields_attempted _ _ _ _ _,
          ⟨true, withValidationFields_attempted _ _ _ _ _ _⟩, ?_⟩
        rw [withValidationFields_passed]
        refine iff_of_false (fun hc => PyVal.noConfusion hc) (fun hc => ?_)
        obtain ⟨_, e', he⟩ := hc
        exact Except.noConfusion he
      · obtain ⟨hvp, hra, hhas1, hhas2⟩ := phase3_validate_plain_fields
          _ _ _ _ env.regenZeroGw _ _ _ _ htc hvv (Bool.eq_false_iff.mpr hcnd)
        obtain ⟨b, hb⟩ := validate_ok_passed_bool _ _ _ _ _ _ _ hvv
        refine ⟨_, rfl, hhas1, hhas2, ⟨false, hra⟩, ?_⟩
        rw [hvp, hb]
        refine iff_of_false (fun hc => PyVal.noConfusion hc) (fun hc => ?_)
        obtain ⟨_, e', he⟩ := hc
        exact Except.noConfusion he

/-- Witness for the amended C5 at a concrete environment (zero test cases,
regeneration succeeds). -/
theorem generation_path_validation_fields_witness :
    ∃ d, (get_ticket_analysis envZeroWitness).2 = Except.ok d ∧
      dictHas d "validation_passed" = true ∧
      dictHas d "regeneration_attempted" = true ∧
      (∃ b, dictGet d "regeneration_attempted" PyVal.none = PyVal.bool b) ∧
      (dictGet d "validation_passed" PyVal.none = PyVal.none ↔
        phase2TestCases "" ≠ [] ∧
        ∃ e, (validate_test_cases
          (asStr (dictGet (parsePhase1 phase1NeededOutput) "issue_description" (.str "")))
          (asStr (dictGet (parsePhase1 phase1NeededOutput) "root_cause" (.str "")))
          (phase2SetDefaults (parsePhase2 "" (applyValidationLogic (parsePhase1 phase1NeededOutput))))
          envZeroWitness.validateGw envZeroWitness.regenValidateGw).2 = Except.error e) :=
  (generation_path_validation_fields envZeroWitness phase1NeededOutput "" rfl rfl rfl rfl).1

/-! ### Claim C10 -/

/-- C10: whenever the pipeline performs a regeneration whose gateway call
succeeds — either because Phase 2 produced zero test cases or because
validation requested regeneration — the returned result has
`validation_passed = true` and `validation_issues = []`, and the gateway
trace shows the regenerated test cases are never themselves validated
(no validation call at all in the first case, none after the regeneration
in the second). -/
theorem regeneration_skips_validation (env : PipelineEnv) (out1 out2 : String)
    (hs : env.openaiServicePresent = true)
    (h1 : env.phase1Gw = .ok out1)
    (hneed : pyTruthy (dictGet (applyValidationLogic (parsePhase1 out1))
      "test_case_needed" PyVal.none) = true)
    (h2 : env.phase2Gw = .ok out2) :
    (∀ rout, phase2TestCases out2 = [] → env.regenZeroGw = .ok rout →
      (get_ticket_analysis env).1 = [.phase1, .phase2, .regenerate noTestCasesFeedback] ∧
      ∃ d, (get_ticket_analysis env).2 = Except.ok d ∧
        dictGet d "validation_passed" PyVal.none = PyVal.bool true ∧
        dictGet d "validation_issues" PyVal.none = PyVal.listV []) ∧
    (∀ vout rvout, phase2TestCases out2 ≠ [] → env.validateGw = .ok vout →
      pyTruthy (dictGet (parseValidationResponse vout) "regeneration_needed" (.bool false)) = true →
      env.regenValidateGw = .ok rvout →
      (get_ticket_analysis env).1 = [.phase1, .phase2, .validate,
        .regenerate (asStr (dictGet (parseValidationResponse vout)
          "regeneration_feedback" (.str "")))] ∧
      ∃ d, (get_ticket_analysis env).2 = Except.ok d ∧
        dictGet d "validation_passed" PyVal.none = PyVal.bool true ∧
        dictGet d "validation_issues" PyVal.none = PyVal.listV []) := by
  constructor
  · intro rout htc hr
    rw [get_ticket_analysis_service env hs, pipelineBody_main env out1 out2 h1 hneed h2,
      hr, phase3_zero_ok _ _ _ _ _ _ _ htc]
    exact ⟨rfl, _, rfl, withValidationFields_passed _ _ _ _ _ _,
      withValidationFields_issues _ _ _ _ _ _⟩
  · intro vout rvout htc hv hrn hrv
    rw [get_ticket_analysis_service env hs, pipelineBody_main env out1 out2 h1 hneed h2,
      hv, hrv]
    rw [phase3_validate_regen_eq _ _ _ _ _ _ _ _ _ htc
      (validate_regen_ok _ _ _ _ _ hrn) ?hc1 ?hc2]
    case hc1 =>
      rw [dictGet_dictSet_ne _ _ _ _ _ (by decide)]
      exact hrn
    case hc2 =>
      rw [dictGet_dictSet_self]
      simp [pyTruthy, parsePhase2_nonempty]
    exact ⟨rfl, _, rfl, withValidationFields_passed _ _ _ _ _ _,
      withValidationFields_issues _ _ _ _ _ _⟩

set_option maxRecDepth 16384 in
/-- Witness for C10, exercising the validation-requested regeneration path
at a concrete environment. -/
theorem regeneration_skips_validation_witness :
    (get_ticket_analysis envValWitness).1 = [.phase1, .phase2, .validate,
      .regenerate (asStr (dictGet (parseValidationResponse validationRegenOutput)
        "regeneration_feedback" (.str "")))] :=
  ((regeneration_skips_validation envValWitness phase1NeededOutput oneTestCaseOutput
      rfl rfl rfl rfl).2 validationRegenOutput oneTestCaseOutput
    (by
      intro h
      have hl : (phase2TestCases oneTestCaseOutput).length = 1 := rfl
      rw [h] at hl
      exact absurd hl (by decide))
    rfl rfl rfl).1

/-! ### Claim C1 -/

/-- C1: for every pair of extracted Phase-1 texts, the classification
override follows the claimed decision table with first-matching-row-wins
precedence — rule 1 gives `true`, rule 2 `false`, rule 3 `true`, rule 4
`false`, and otherwise Phase 1's own answer is kept unchanged; each
predicate is a case-insensitive phrase match against its designated text. -/
theorem classification_follows_decision_table (ta : Dict) :
    dictGet (applyValidationLogic ta) "test_case_needed" PyVal.none =
      claimDecisionTable
        (claimRootCauseUnclear (asStr (dictGet ta "root_cause" (.str ""))))
        (claimFunctionalGap (asStr (dictGet ta "issue_description" (.str ""))))
        (claimCodeBugIndicator (asStr (dictGet ta "root_cause" (.str ""))))
        (claimPureUserMistake (asStr (dictGet ta "issue_description" (.str "")))
          (asStr (dictGet ta "root_cause" (.str ""))) ||
         claimProductLimitation (asStr (dictGet ta "issue_description" (.str "")))
          (asStr (dictGet ta "root_cause" (.str ""))))
        (dictGet ta "test_case_needed" PyVal.none) :=
  applyValidationLogic_needed ta

/-! ### Claim C2 -/

/-- C2 counterexample: on the claimed input pair
(`issueText = "Exception not handled"`,
`rootCauseText = "unclear root cause, but TASK NOT CREATED"`) the
classification returns `testCaseNeeded = false` — rule 2 fires, not the
claimed rule 1 — even when Phase 1 itself answered `true`. -/
theorem classify_spec_example_counterexample :
    dictGet (applyValidationLogic
      [("issue_description", PyVal.str "Exception not handled"),
       ("root_cause", PyVal.str "unclear root cause, but TASK NOT CREATED"),
       ("test_case_needed", PyVal.bool true)])
      "test_case_needed" PyVal.none = PyVal.bool false ∧
    ¬ dictGet (applyValidationLogic
      [("issue_description", PyVal.str "Exception not handled"),
       ("root_cause", PyVal.str "unclear root cause, but TASK NOT CREATED"),
       ("test_case_needed", PyVal.bool true)])
      "test_case_needed" PyVal.none = PyVal.bool true := by
  constructor
  · rfl
  · intro h
    rw [show dictGet (applyValidationLogic
      [("issue_description", PyVal.str "Exception not handled"),
       ("root_cause", PyVal.str "unclear root cause, but TASK NOT CREATED"),
       ("test_case_needed", PyVal.bool true)])
      "test_case_needed" PyVal.none = PyVal.bool false from rfl] at h
    exact Bool.noConfusion (PyVal.bool.inj h)

/-- C2 amended: on that input classification returns
`testCaseNeeded = false` with rule 2 firing (root cause unclear and no
functional-gap phrase in the issue text), whatever answer Phase 1 gave,
and the result is unchanged under any re-casing of the two texts. -/
theorem classify_spec_example_rule2 (s t : String) (prev : PyVal)
    (hs : pyLower s = pyLower "Exception not handled")
    (ht : pyLower t = pyLower "unclear root cause, but TASK NOT CREATED") :
    dictGet (applyValidationLogic
      [("issue_description", PyVal.str s), ("root_cause", PyVal.str t),
       ("test_case_needed", prev)]) "test_case_needed" PyVal.none = PyVal.bool false ∧
    dictGet (applyValidationLogic
      [("issue_description", PyVal.str s), ("root_cause", PyVal.str t),
       ("test_case_needed", prev)]) "test_case_needed_reason" PyVal.none =
      PyVal.str rule2Reason := by
  have h1 : anyPhraseIn rootCauseNotIdentifiedPhrases
      (pyLower (asStr (dictGet
        [("issue_description", PyVal.str s), ("root_cause", PyVal.str t),
         ("test_case_needed", prev)] "root_cause" (.str "")))) = true := by
    rw [show asStr (dictGet
      [("issue_description", PyVal.str s), ("root_cause", PyVal.str t),
       ("test_case_needed", prev)] "root_cause" (.str "")) = t from rfl, ht]
    rfl
  have h2 : anyPhraseIn functionalGapPhrases
      (pyLower (asStr (dictGet
        [("issue_description", PyVal.str s), ("root_cause", PyVal.str t),
         ("test_case_needed", prev)] "issue_description" (.str "")))) = false := by
    rw [show asStr (dictGet
      [("issue_description", PyVal.str s), ("root_cause", PyVal.str t),
       ("test_case_needed", prev)] "issue_description" (.str "")) = s from rfl, hs]
    rfl
  rw [applyValidationLogic_rule2 _ h1 h2]
  refine ⟨?_, ?_⟩
  · rw [dictGet_dictSet_ne _ _ _ _ _ (by decide), dictGet_dictSet_self]
  · rw [dictGet_dictSet_self]

/-- Witness for the amended C2: applied at a re-cased concrete input. -/
theorem classify_spec_example_rule2_witness :
    pyLower "EXCEPTION NOT HANDLED" = pyLower "Exception not handled" ∧
    pyLower "Unclear root cause, but task not created" =
      pyLower "unclear root cause, but TASK NOT CREATED" ∧
    dictGet (applyValidationLogic
      [("issue_description", PyVal.str "EXCEPTION NOT HANDLED"),
       ("root_cause", PyVal.str "Unclear root cause, but task not created"),
       ("test_case_needed", PyVal.bool true)])
      "test_case_needed" PyVal.none = PyVal.bool false :=
  ⟨rfl, rfl,
    (classify_spec_example_rule2 "EXCEPTION NOT HANDLED"
      "Unclear root cause, but task not created" (PyVal.bool true) rfl rfl).1⟩

/-! ### Claim C8 -/

/-- C8 counterexample: a regression section reading `Not applicable`
contains `NOT APPLICABLE` (case-insensitively) yet the parsed
`regression_test_needed` is `false`, not null — the code only checks for
the literal substring `N/A`. -/
theorem regression_not_applicable_not_null :
    pyIn "NOT APPLICABLE"
      (pyUpper (pyStrip (extractSection "Regression Test Needed" c8Output p2DefaultStops))) = true ∧
    dictGet (parsePhase2 c8Output []) "regression_test_needed" PyVal.none = PyVal.bool false := by
  exact ⟨rfl, rfl⟩

/-- C8 amended: a boolean field is true iff the trimmed section text
case-insensitively starts with `YES`; the top-level
`regression_test_needed` is null exactly when the uppercased section text
contains the literal substring `N/A` (so `NOT APPLICABLE` spelled out does
not yield null); each test case's `regression_needed` is null exactly when
its `Regression Needed` section text is empty. -/
theorem extractor_boolean_fields (out : String) (ta : Dict) (n : Nat) (blk : String)
    (hblk : testCaseBlock n out = some blk) :
    (dictGet (parsePhase1 out) "test_case_needed" PyVal.none = PyVal.bool true ↔
      pyStartsWith (pyUpper (pyStrip (extractSection "Test Case Needed" out p1Sections))) "YES" = true) ∧
    (dictGet (parsePhase2 out ta) "regression_test_needed" PyVal.none = PyVal.none ↔
      pyIn "N/A" (pyUpper (pyStrip (extractSection "Regression Test Needed" out p2DefaultStops))) = true) ∧
    (∀ tc, extractTestCase n out = some tc →
      (dictGet tc "regression_needed" PyVal.none = PyVal.none ↔
        pyStrip (extractSection "Regression Needed" blk ["Title", "Description", "Steps"]) = "")) := by
  refine ⟨?_, ?_, ?_⟩
  · rw [show dictGet (parsePhase1 out) "test_case_needed" PyVal.none =
      PyVal.bool (pyStartsWith (pyUpper (pyStrip (extractSection "Test Case Needed" out p1Sections))) "YES")
      from rfl]
    constructor
    · intro h; exact PyVal.bool.inj h
    · intro h; rw [h]
  · rw [show dictGet (parsePhase2 out ta) "regression_test_needed" PyVal.none =
      phase2RegressionNeeded (pyStrip (extractSection "Regression Test Needed" out p2DefaultStops))
      from rfl]
    unfold phase2RegressionNeeded
    by_cases h : pyIn "N/A" (pyUpper (pyStrip (extractSection "Regression Test Needed" out p2DefaultStops))) = true
    · rw [if_pos h]
      exact iff_of_true rfl h
    · rw [if_neg h]
      constructor
      · intro hc; exact (PyVal.noConfusion hc)
      · intro hq; exact absurd hq h
  · intro tc htc
    rw [show extractTestCase n out = (testCaseBlock n out).map tcDictOfBlock from rfl, hblk] at htc
    have htc' : tc = tcDictOfBlock blk := by
      simpa using htc.symm
    subst htc'
    rw [show dictGet (tcDictOfBlock blk) "regression_needed" PyVal.none =
      (if pyStrip (extractSection "Regression Needed" blk ["Title", "Description", "Steps"]) ≠ "" then
        PyVal.bool (pyStartsWith (pyUpper (pyStrip (extractSection "Regression Needed" blk
          ["Title", "Description", "Steps"]))) "YES")
      else PyVal.none) from rfl]
    by_cases h : pyStrip (extractSection "Regression Needed" blk ["Title", "Description", "Steps"]) = ""
    · rw [if_neg (fun hn => hn h)]
      exact iff_of_true rfl h
    · rw [if_pos h]
      constructor
      · intro hc; exact (PyVal.noConfusion hc)
      · intro hq; exact absurd hq h

/-- Witness for the amended C8, at a concrete Phase-2 reply with one test
case block. -/
theorem extractor_boolean_fields_witness :
    testCaseBlock 1 oneTestCaseOutput =
      some "Test Case 1:\nTitle: T\nDescription: D\nSteps:\nS\nRegression Needed: Yes\n" ∧
    (dictGet (parsePhase1 oneTestCaseOutput) "test_case_needed" PyVal.none = PyVal.bool true ↔
      pyStartsWith (pyUpper (pyStrip (extractSection "Test Case Needed" oneTestCaseOutput p1Sections))) "YES" = true) := by
  refine ⟨rfl, ?_⟩
  exact (extractor_boolean_fields oneTestCaseOutput [] 1
    "Test Case 1:\nTitle: T\nDescription: D\nSteps:\nS\nRegression Needed: Yes\n" rfl).1

/-! ### Bulk orchestrator lemmas -/

/-- Count invariant of the worker loop: every update carrying counts has
`processed = success + failed` and `processed ≤ total`. -/
theorem runJobAux_counts (total : Nat) (flags : Nat → Bool)
    (items : List (String × ItemOutcome)) :
    ∀ (p s f : Nat) (tr : List (String × Option String)),
      p = s + f → p + items.length = total →
      ∀ u ∈ runJobAux total flags items p s f tr,
        ∀ p' s' f', u.processedCount = some p' → u.successCount = some s' →
          u.failedCount = some f' → p' = s' + f' ∧ p' ≤ total := by
  induction items with
  | nil =>
    intro p s f tr hsf hlen u hu p' s' f' hp hs hf
    have hu' : u = ⟨some (if p = total then "completed" else "cancelled"),
        some p, some s, some f, some tr⟩ := by
      simpa [runJobAux] using hu
    subst hu'
    obtain rfl := Option.some.inj hp
    obtain rfl := Option.some.inj hs
    obtain rfl := Option.some.inj hf
    rw [List.length_nil] at hlen
    exact ⟨hsf, by omega⟩
  | cons it rest ih =>
    intro p s f tr hsf hlen u hu p' s' f' hp hs hf
    obtain ⟨tid, outc⟩ := it
    rw [List.length_cons] at hlen
    by_cases hfl : flags p = true
    · simp only [runJobAux, hfl, if_true] at hu
      rcases List.mem_cons.mp hu with rfl | hu2
      · obtain rfl := Option.some.inj hp
        obtain rfl := Option.some.inj hs
        obtain rfl := Option.some.inj hf
        exact ⟨hsf, by omega⟩
      · obtain rfl := List.mem_singleton.mp hu2
        obtain rfl := Option.some.inj hp
        obtain rfl := Option.some.inj hs
        obtain rfl := Option.some.inj hf
        exact ⟨hsf, by omega⟩
    · cases outc with
      | ok r =>
        by_cases hsucc : r.success = true
        · simp only [runJobAux, hfl, hsucc, if_true, if_false, Bool.false_eq_true] at hu
          rcases List.mem_cons.mp hu with rfl | hu2
          · obtain rfl := Option.some.inj hp
            obtain rfl := Option.some.inj hs
            obtain rfl := Option.some.inj hf
            exact ⟨by omega, by omega⟩
          · exact ih (p + 1) (s + 1) f _ (by omega) (by omega) u hu2 p' s' f' hp hs hf
        · have hsucc' : r.success = false := by
            cases hb : r.success
            · rfl
            · exact absurd hb hsucc
          simp only [runJobAux, hfl, hsucc', if_false, Bool.false_eq_true] at hu
          rcases List.mem_cons.mp hu with rfl | hu2
          · obtain rfl := Option.some.inj hp
            obtain rfl := Option.some.inj hs
            obtain rfl := Option.some.inj hf
            exact ⟨by omega, by omega⟩
          · exact ih (p + 1) s (f + 1) _ (by omega) (by omega) u hu2 p' s' f' hp hs hf
      | error e =>
        simp only [runJobAux, hfl, if_false, Bool.false_eq_true] at hu
        rcases List.mem_cons.mp hu with rfl | hu2
        · obtain rfl := Option.some.inj hp
          obtain rfl := Option.some.inj hs
          obtain rfl := Option.some.inj hf
          exact ⟨by omega, by omega⟩
        · exact ih (p + 1) s (f + 1) _ (by omega) (by omega) u hu2 p' s' f' hp hs hf

/-- Shape of the worker loop when cancellation is first observed at
boundary `i`. -/
theorem runJobAux_cancel (total : Nat) (flags : Nat → Bool)
    (items : List (String × ItemOutcome)) :
    ∀ (p s f : Nat) (tr : List (String × Option String)) (i : Nat),
      p + items.length = total → p = s + f → p ≤ i → i < total →
      (∀ j, p ≤ j → j < i → flags j = false) → flags i = true →
      (runJobAux total flags items p s f tr).length = (i - p) + 2 ∧
      ∀ u ∈ (runJobAux total flags items p s f tr).drop (i - p),
        u.status = some "cancelled" ∧ u.processedCount = some i ∧
        ∃ s' f' tr', u.successCount = some s' ∧ u.failedCount = some f' ∧
          u.ticketResults = some tr' ∧ s' + f' = i := by
  induction items with
  | nil =>
    intro p s f tr i hlen hsf hpi hi hbefore hflag
    rw [List.length_nil] at hlen
    exact False.elim (by omega)
  | cons it rest ih =>
    intro p s f tr i hlen hsf hpi hi hbefore hflag
    obtain ⟨tid, outc⟩ := it
    rw [List.length_cons] at hlen
    by_cases hpi' : p = i
    · subst hpi'
      simp only [runJobAux, hflag, if_true]
      refine ⟨by simp, ?_⟩
      intro u hu
      rw [Nat.sub_self] at hu
      rcases List.mem_cons.mp hu with rfl | hu2
      · exact ⟨rfl, rfl, s, f, tr, rfl, rfl, rfl, hsf.symm⟩
      · obtain rfl := List.mem_singleton.mp hu2
        refine ⟨?_, rfl, s, f, tr, rfl, rfl, rfl, hsf.symm⟩
        rw [if_neg (by omega)]
    · have hflp : flags p = false := hbefore p (Nat.le_refl p) (by omega)
      have hstep : ∃ s' f' tr', p + 1 = s' + f' ∧
          runJobAux total flags ((tid, outc) :: rest) p s f tr =
            (⟨Option.none, some (p + 1), some s', some f', some tr'⟩ : JobUpdate) ::
            runJobAux total flags rest (p + 1) s' f' tr' := by
        cases outc with
        | ok r =>
          by_cases hsucc : r.success = true
          · exact ⟨s + 1, f, trSet tr tid Option.none, by omega,
              by simp [runJobAux, hflp, hsucc]⟩
          · have hsucc' : r.success = false := by
              cases hb : r.success
              · rfl
              · exact absurd hb hsucc
            exact ⟨s, f + 1, trSet tr tid (some (r.error.getD "Unknown error")), by omega,
              by simp [runJobAux, hflp, hsucc']⟩
        | error e =>
          exact ⟨s, f + 1, trSet tr tid (some (pyTake e 200)), by omega,
            by simp [runJobAux, hflp]⟩
      obtain ⟨s', f', tr', hsf', heq⟩ := hstep
      rw [heq]
      obtain ⟨ihlen, ihdrop⟩ := ih (p + 1) s' f' tr' i (by omega) hsf' (by omega) hi
        (fun j hj1 hj2 => hbefore j (by omega) hj2) hflag
      constructor
      · rw [List.length_cons, ihlen]
        omega
      · intro u hu
        have hdrop : ((⟨Option.none, some (p + 1), some s', some f', some tr'⟩ : JobUpdate) ::
            runJobAux total flags rest (p + 1) s' f' tr').drop (i - p) =
            (runJobAux total flags rest (p + 1) s' f' tr').drop (i - (p + 1)) := by
          have h1 : i - p = (i - (p + 1)) + 1 := by omega
          rw [h1, List.drop_succ_cons]
        rw [hdrop] at hu
        exact ihdrop u hu

/-- Stopping a job flips its registry flag to `False` wherever present. -/
theorem lookupFlag_stop (jid : String) (l : List (String × Bool)) :
    lookupFlag jid (l.map (fun kv => if kv.1 = jid then (kv.1, false) else kv)) =
      (lookupFlag jid l).map (fun _ => false) := by
  induction l with
  | nil => rfl
  | cons kv rest ih =>
    obtain ⟨k, b⟩ := kv
    simp only [List.map_cons]
    by_cases hk : k = jid
    · subst hk
      rw [if_pos rfl]
      simp [lookupFlag, ih]
    · rw [if_neg hk]
      simp [lookupFlag, hk, ih]

/-! ### Claim C6 -/

/-- C6: at every progress update the bulk worker publishes with counts —
the per-item update, the cancellation update, and the final update —
`processed = success + failed` and `processed ≤ totalItems`. -/
theorem job_counts_invariant (items : List (String × ItemOutcome)) (flags : Nat → Bool)
    (u : JobUpdate) (hu : u ∈ runJob items flags) (p s f : Nat)
    (hp : u.processedCount = some p) (hs : u.successCount = some s)
    (hf : u.failedCount = some f) :
    p = s + f ∧ p ≤ items.length := by
  rcases List.mem_cons.mp hu with rfl | hu2
  · exact absurd hp (by simp)
  · exact runJobAux_counts items.length flags items 0 0 0 [] rfl (by omega)
      u hu2 p s f hp hs hf

/-- Witness for C6, at a one-item batch. -/
theorem job_counts_invariant_witness : (1 : Nat) = 1 + 0 ∧ 1 ≤ c6Items.length := by
  have hu : c6Update ∈ runJob c6Items c6Flags := by
    have hlist : runJob c6Items c6Flags =
        [⟨some "running", Option.none, Option.none, Option.none, Option.none⟩,
         c6Update,
         ⟨some "completed", some 1, some 1, some 0, some [("t1", Option.none)]⟩] := rfl
    rw [hlist]
    exact List.mem_cons_of_mem _ (List.mem_cons_self _ _)
  exact job_counts_invariant c6Items c6Flags c6Update hu 1 1 0 rfl rfl rfl

/-! ### Claim C7 -/

/-- C7: `cancel_job` returns false when the job is not currently running;
when it is running it flips the per-job flag so the worker's boundary
check observes the cancellation; a worker whose schedule first shows the
flag at boundary `i < totalItems` publishes exactly `i` per-item updates,
then a cancellation update recording the counts as of the `i` fully
processed items, and every update from that point on keeps
`status = cancelled` and `processedCount = i` (cancelled is absorbing). -/
theorem cancel_job_semantics (m : ManagerState) (job_id : String)
    (items : List (String × ItemOutcome)) (flags : Nat → Bool) (i : Nat)
    (hfirst : ∀ j, j < i → flags j = false) (hflag : flags i = true)
    (hi : i < items.length) :
    ((is_job_running m job_id = false →
        (cancel_job m job_id).2 = false ∧ (cancel_job m job_id).1 = m) ∧
     (is_job_running m job_id = true →
        (cancel_job m job_id).2 = true ∧
        workerSeesCancel (cancel_job m job_id).1 job_id = true)) ∧
    (runJob items flags).length = i + 3 ∧
    ∀ u ∈ (runJob items flags).drop (i + 1),
      u.status = some "cancelled" ∧ u.processedCount = some i ∧
      ∃ s' f' tr', u.successCount = some s' ∧ u.failedCount = some f' ∧
        u.ticketResults = some tr' ∧ s' + f' = i := by
  obtain ⟨hlen, hdrop⟩ := runJobAux_cancel items.length flags items 0 0 0 [] i
    (by omega) rfl (Nat.zero_le i) hi (fun j _ hj => hfirst j hj) hflag
  refine ⟨⟨?_, ?_⟩, ?_, ?_⟩
  · intro hrun
    simp [cancel_job, hrun]
  · intro hrun
    have hlk : lookupActive m job_id = some true := by
      unfold is_job_running at hrun
      cases hl : lookupActive m job_id with
      | none => rw [hl] at hrun; exact absurd hrun (by decide)
      | some b =>
        rw [hl] at hrun
        simp at hrun
        rw [hrun]
    constructor
    · simp [cancel_job, hrun]
    · have hstop : (cancel_job m job_id).1 = stop_job m job_id := by
        simp [cancel_job, hrun]
      rw [hstop]
      unfold workerSeesCancel stop_job
      rw [hlk]
      unfold lookupActive
      rw [lookupFlag_stop]
      rw [show lookupFlag job_id m.activeJobs = some true from hlk]
      rfl
  · rw [runJob, List.length_cons, hlen]
    omega
  · intro u hu
    rw [runJob, List.drop_succ_cons] at hu
    have : (i : Nat) - 0 = i := by omega
    rw [← this] at hu
    exact hdrop u hu

/-- Witness for C7, cancelling a two-item batch after its first item. -/
theorem cancel_job_semantics_witness :
    (runJob c7Items c7Flags).length = 1 + 3 :=
  (cancel_job_semantics c7Manager "job-1" c7Items c7Flags 1
    (by
      intro j hj
      have hj0 : j = 0 := by omega
      subst hj0
      rfl)
    rfl (by decide)).2.1

/-! ### Claim C9 -/

/-- C9: when both Zendesk fetches return 200 and a non-empty conversation
is formatted, the item counts as a success even when both enabled
analyses raise — the per-analysis handlers inside `process_single_ticket`
swallow the exceptions, and the worker loop increments `success_count`
(never `failed_count`) for the item. -/
theorem analysis_failures_do_not_fail_item (env : TicketEnv) (psP : Bool)
    (h200a : env.ticketStatus = 200) (h200b : env.commentsStatus = 200)
    (hconv : env.conversation ≠ "") (e1 e2 : String)
    (_htc : env.testCaseStep = .error e1) (_hpr : env.priorityStep = .error e2) :
    (process_single_ticket env psP true true).success = true ∧
    ∀ (total : Nat) (flags : Nat → Bool) (tid : String)
      (rest : List (String × ItemOutcome)) (p s f : Nat)
      (tr : List (String × Option String)), flags p = false →
      runJobAux total flags
          ((tid, Except.ok (process_single_ticket env psP true true)) :: rest) p s f tr =
        (⟨Option.none, some (p + 1), some (s + 1), some f,
            some (trSet tr tid Option.none)⟩ : JobUpdate) ::
        runJobAux total flags rest (p + 1) (s + 1) f (trSet tr tid Option.none) := by
  have hps : process_single_ticket env psP true true = ⟨true, Option.none⟩ := by
    unfold process_single_ticket
    rw [h200a, h200b]
    simp [hconv]
  constructor
  · rw [hps]
  · intro total flags tid rest p s f tr hfl
    rw [hps]
    simp [runJobAux, hfl]

/-- Witness for C9, at a ticket whose two analyses both raise. -/
theorem analysis_failures_do_not_fail_item_witness :
    (process_single_ticket c9Env true true true).success = true :=
  (analysis_failures_do_not_fail_item c9Env true rfl rfl (by decide)
    "test case analysis failed" "priority analysis failed" rfl rfl).1

end ZA
